import Mathlib

/-!
Verification of the rule engine of `fortran_linter/main.py`.

The engine evaluates a nested tree of regular-expression rules against one
line of text.  We embed, faithfully to the source:

* the subset of Python `re` semantics exercised by the rule catalog
  (ordered alternation, greedy quantifiers, character classes, anchors,
  capturing groups, negative lookahead, `finditer`, `sub` with
  back-reference templates);
* the rule catalog `FortranRules.rules` (each rule's compiled pattern is
  transliterated construct by construct from its pattern string);
* `FortranRules.format_rule`, `LineChecker.check_ruleset`,
  `LineChecker.check_rule`, `LineChecker.fmt_err` and `to_lowercase`.

Lines are `List Char` (Python strings); a possible Python runtime
exception during evaluation is modelled by `Option` (`none` = raises).
-/

namespace FortranLint

/-! ### Character classes

Python `re` classes, restricted to ASCII as the linter's inputs are.
`\w` = word char, `\s` = whitespace, `\d` = digit, `.` = any char but
newline (no DOTALL flag is used by the linter). -/

def pyWord (c : Char) : Bool := c.isAlphanum || c == '_'

def pySpace (c : Char) : Bool :=
  c == ' ' || c == '\t' || c == '\n' || c == '\r' || c == '\x0b' || c == '\x0c'

def pyDigit (c : Char) : Bool := c.isDigit

def pyDot (c : Char) : Bool := c != '\n'

/-! ### Regular expressions

The constructs appearing in `FortranRules.rules`:
`lit` a literal character run, `pred` a one-character class, `seq`,
ordered alternation `alt`, greedy star of a one-character class `starP`,
fixed repetition of a class `repP` (`.{n}`), general greedy star `star`
(only needed for `( \t)+`), capturing `group`, anchors `bol` (`^`, no
MULTILINE), `eol` (`$`: end of string or just before a final newline),
word boundary `wb` (`\b`) and negative lookahead `nla` (`(?!...)`). -/

inductive Re where
  | eps
  | lit (cs : List Char)
  | pred (p : Char → Bool)
  | seq (a b : Re)
  | alt (a b : Re)
  | starP (p : Char → Bool)
  | repP (n : Nat) (p : Char → Bool)
  | star (r : Re)
  | group (i : Nat) (r : Re)
  | bol
  | eol
  | wb
  | nla (r : Re)

/-- `p?` (greedy option). -/
def Re.opt (r : Re) : Re := .alt r .eps

/-- `r+` for a general body: one copy then a star. -/
def Re.plus (r : Re) : Re := .seq r (.star r)

/-- `p+` for a one-character class. -/
def Re.plusP (p : Char → Bool) : Re := .seq (.pred p) (.starP p)

/-- Ordered alternation of a list (left branch preferred, as in Python). -/
def Re.alts : List Re → Re
  | [] => .pred (fun _ => false)
  | [r] => r
  | r :: rs => .alt r (Re.alts rs)

/-- Captured group spans, most recent first: `(index, start, stop)`. -/
abbrev Caps := List (Nat × Nat × Nat)

/-- Length of the maximal run of characters satisfying `p` starting at
`pos` (used for greedy one-character-class quantifiers). -/
def countWhileFrom (p : Char → Bool) (s : List Char) (pos : Nat) : Nat :=
  ((s.drop pos).takeWhile p).length

/-- Does `cs` appear literally at `pos` of `s`? -/
def litAt : List Char → List Char → Bool
  | [], _ => true
  | _ :: _, [] => false
  | c :: cs, d :: ds => c == d && litAt cs ds

/-- `\b`: exactly one of the two neighbouring characters is a word char. -/
def boundaryAt (s : List Char) (pos : Nat) : Bool :=
  let btw := fun (o : Option Char) => match o with
    | some c => pyWord c
    | none => false
  let left := if pos = 0 then false else btw (s.get? (pos - 1))
  let right := btw (s.get? pos)
  left != right

/-- All end positions (with captures) reachable by one iteration-or-more
loop of `body`, in greedy backtracking preference order; zero-width
iterations are cut, as Python's engine cuts empty repetitions. -/
def starEnds (body : Nat → Caps → List (Nat × Caps)) :
    Nat → Nat → Caps → List (Nat × Caps)
  | 0, pos, caps => [(pos, caps)]
  | fuel + 1, pos, caps =>
      (((body pos caps).filter (fun e => pos < e.1)).flatMap
        (fun e => starEnds body fuel e.1 e.2)) ++ [(pos, caps)]

/-- All end positions (with captures) of a match of `re` starting at
`pos` in `s`, in Python's backtracking preference order: the head of the
list is the match the Python engine reports. -/
def ends (s : List Char) : Re → Nat → Caps → List (Nat × Caps)
  | .eps, pos, caps => [(pos, caps)]
  | .lit cs, pos, caps =>
      if litAt cs (s.drop pos) then [(pos + cs.length, caps)] else []
  | .pred p, pos, caps =>
      match s.get? pos with
      | some c => if p c then [(pos + 1, caps)] else []
      | none => []
  | .seq a b, pos, caps =>
      (ends s a pos caps).flatMap (fun e => ends s b e.1 e.2)
  | .alt a b, pos, caps => ends s a pos caps ++ ends s b pos caps
  | .starP p, pos, caps =>
      let m := countWhileFrom p s pos
      (List.range (m + 1)).map (fun i => (pos + (m - i), caps))
  | .repP n p, pos, caps =>
      if n ≤ countWhileFrom p s pos then [(pos + n, caps)] else []
  | .star r, pos, caps =>
      starEnds (fun q c => ends s r q c) (s.length + 1) pos caps
  | .group i r, pos, caps =>
      (ends s r pos caps).map (fun e => (e.1, (i, pos, e.1) :: e.2))
  | .bol, pos, caps => if pos = 0 then [(pos, caps)] else []
  | .eol, pos, caps =>
      if pos = s.length ∨ (pos + 1 = s.length ∧ s.get? pos = some '\n') then
        [(pos, caps)]
      else []
  | .wb, pos, caps => if boundaryAt s pos then [(pos, caps)] else []
  | .nla r, pos, caps =>
      if (ends s r pos caps).isEmpty then [(pos, caps)] else []

/-- One match as Python reports it. -/
structure RMatch where
  start : Nat
  stop : Nat
  caps : Caps
deriving DecidableEq, Repr

/-- The match of `re` at position `pos` (leftmost-at-`pos`, greedy). -/
def matchAt (re : Re) (s : List Char) (pos : Nat) : Option (Nat × Caps) :=
  (ends s re pos []).head?

/-- `re.finditer`: scan left to right, at each position take the engine's
preferred match, continue after its end (one past it if it was empty). -/
def finditerGo (re : Re) (s : List Char) : Nat → Nat → List RMatch
  | 0, _ => []
  | fuel + 1, pos =>
      if s.length < pos then []
      else
        match matchAt re s pos with
        | some ec =>
            ⟨pos, ec.1, ec.2⟩ ::
              finditerGo re s fuel (if pos < ec.1 then ec.1 else pos + 1)
        | none => finditerGo re s fuel (pos + 1)

def finditer (re : Re) (s : List Char) : List RMatch :=
  finditerGo re s (s.length + 2) 0

/-- The span captured by group `i` in a match (Python keeps the most
recent capture of a group). -/
def groupSpan (m : RMatch) (i : Nat) : Option (Nat × Nat) :=
  (m.caps.find? (fun t => t.1 == i)).map (fun t => (t.2.1, t.2.2))

def sliceList (s : List Char) (a b : Nat) : List Char :=
  (s.drop a).take (b - a)

/-- Expansion of a `re.sub` replacement template against one match:
`\1`..`\9` insert the captured text (error -- `none` -- when the group
never matched, as Python raises "unmatched group"), `\n` inserts a
newline, `\\` a backslash, any other escape is an error; plain
characters are copied. -/
def expandTemplate (s : List Char) (m : RMatch) : List Char → Option (List Char)
  | [] => some []
  | c :: rest =>
      if c = '\\' then
        match rest with
        | [] => none
        | d :: rest2 =>
            if d.isDigit then
              match groupSpan m (d.toNat - '0'.toNat) with
              | some ab => (expandTemplate s m rest2).map
                  (fun t => sliceList s ab.1 ab.2 ++ t)
              | none => none
            else if d = 'n' then
              (expandTemplate s m rest2).map (fun t => '\n' :: t)
            else if d = '\\' then
              (expandTemplate s m rest2).map (fun t => '\\' :: t)
            else none
      else (expandTemplate s m rest).map (fun t => c :: t)

/-- `re.sub`: splice the expanded template over every match of `re`. -/
def pysubGo (tmpl : List Char) (s : List Char) :
    List RMatch → Nat → Option (List Char)
  | [], cur => some (s.drop cur)
  | m :: ms, cur => do
      let rep ← expandTemplate s m tmpl
      let rest ← pysubGo tmpl s ms m.stop
      some (sliceList s cur m.start ++ rep ++ rest)

def pysub (re : Re) (tmpl : List Char) (s : List Char) : Option (List Char) :=
  pysubGo tmpl s (finditer re s) 0

/-! ### Rules and the line checker (`LineChecker`) -/

/-- `to_lowercase(line, match)`: lowercase the span `[mstart, mstop)` of
`line` (the span comes from a match on the original line but is applied
to the current line, exactly as in the source). -/
def to_lowercase (line : List Char) (mstart mstop : Nat) : List Char :=
  line.take mstart ++ (sliceList line mstart mstop).map Char.toLower ++
    line.drop mstop

/-- The replacement slot of a rule: Python dispatches on
`callable(correction)` / `correction is not None` / `None`. -/
inductive Correction where
  | cnone
  | static (tmpl : List Char)
  | transform (f : List Char → Nat → Nat → List Char)

/-- A compiled rule `(regexp, correction, msg)`. -/
structure CRule where
  re : Re
  corr : Correction
  msg : Option String

/-- The compiled rule tree: a Python tuple is a leaf, a Python list is a
group of children. -/
inductive Ruleset where
  | rule (r : CRule)
  | group (children : List Ruleset)

theorem Ruleset.sizeOf_pos (rs : Ruleset) : 0 < sizeOf rs := by
  cases rs <;> simp

/-- Per-line metadata (`meta` in `check_lines`): file name, 1-based line
number, and the original line with newlines stripped, used only for
diagnostic rendering. -/
structure Meta where
  filename : String
  line : Nat
  original_line : String
deriving DecidableEq, Repr

/-- The checker's mutable counters and diagnostic list
(`errcount`, `modifcount`, `errors`). -/
structure CheckState where
  errcount : Nat
  modifcount : Nat
  errors : List String
deriving DecidableEq, Repr

/-- `LineChecker.fmt_err`: render one diagnostic exactly as the format
string
`"{meta[filename]}:{meta[line]}:{meta[pos]}:\n\n {meta[original_line]}\n {showpos}\nWarning: {msg} at (1)."`
does, with `showpos = " " * pos + "1"`. -/
def fmt_err (msg : String) (meta : Meta) (pos : Nat) : String :=
  let showpos := String.mk (List.replicate pos ' ') ++ "1"
  meta.filename ++ ":" ++ toString meta.line ++ ":" ++ toString pos ++
    ":\n\n " ++ meta.original_line ++ "\n " ++ showpos ++ "\nWarning: " ++
    msg ++ " at (1)."

/-- The correction step of `check_rule`'s loop body: dispatch on
`callable(correction)` (transform) / `correction is not None` (static
whole-line substitution) / `None` (detection only); a transform or
substitution bumps `modifcount` even when it changes nothing.  `none`
models a Python exception (an invalid substitution template). -/
def apply_correction (rule : CRule) (newLine : List Char) (m : RMatch)
    (st : CheckState) : Option (List Char × CheckState) :=
  match rule.corr with
  | .transform f =>
      some (f newLine m.start m.stop,
        { st with modifcount := st.modifcount + 1 })
  | .static t =>
      (pysub rule.re t newLine).map
        (fun nl => (nl, { st with modifcount := st.modifcount + 1 }))
  | .cnone => some (newLine, st)

/-- The message step of `check_rule`'s loop body: when the rule has a
message, record the formatted diagnostic and bump `errcount`. -/
def emit_msg (meta : Meta) (rule : CRule) (pos : Nat) (st : CheckState) :
    CheckState :=
  match rule.msg with
  | some msg =>
      { st with
        errcount := st.errcount + 1,
        errors := st.errors ++ [fmt_err msg meta pos] }
  | none => st

/-- The body of `LineChecker.check_rule`'s loop over
`regexp.finditer(original_line)`: count a hint, apply the correction to
the current line, emit the diagnostic at column `match.start + 1`. -/
def check_rule_go (meta : Meta) (rule : CRule) :
    List RMatch → List Char → Nat → CheckState →
    Option (List Char × Nat × CheckState)
  | [], newLine, hints, st => some (newLine, hints, st)
  | m :: ms, newLine, hints, st =>
      match apply_correction rule newLine m st with
      | none => none
      | some r1 =>
          check_rule_go meta rule ms r1.1 (hints + 1)
            (emit_msg meta rule (m.start + 1) r1.2)

/-- `LineChecker.check_rule`: matches are located in `original`, only
the substitution step touches the current `line`. -/
def check_rule (line original : List Char) (meta : Meta) (rule : CRule)
    (st : CheckState) : Option (List Char × Nat × CheckState) :=
  check_rule_go meta rule (finditer rule.re original) line 0 st

mutual

/-- `LineChecker.check_ruleset`: a tuple is checked directly; a list is
iterated in order by `check_list`. -/
def check_ruleset (line original : List Char) (meta : Meta) (rs : Ruleset)
    (depth : Nat) (st : CheckState) :
    Option (List Char × Nat × CheckState) :=
  match rs with
  | .rule r => check_rule line original meta r st
  | .group children => check_list original meta depth children line st

/-- The `for rule in ruleset` loop of `check_ruleset`, with the
`if hints > 0 and depth >= 1: break` early exit.  An empty list leaves
Python's local `hints` unbound, so the trailing `return line, hints`
raises; this is the `none` case. -/
def check_list (original : List Char) (meta : Meta) (depth : Nat)
    (children : List Ruleset) (line : List Char) (st : CheckState) :
    Option (List Char × Nat × CheckState) :=
  match children with
  | [] => none
  | c :: cs =>
      match check_ruleset line original meta c (depth + 1) st with
      | none => none
      | some r =>
          if 0 < r.2.1 ∧ 1 ≤ depth then some r
          else
            match cs with
            | [] => some r
            | _ :: _ => check_list original meta depth cs r.1 r.2.2

end

/-! ### The rule catalog (`FortranRules`)

Each compiled pattern below is the construct-by-construct transliteration
of the corresponding pattern string of `FortranRules.rules` after the
`str.format` interpolation of `FortranRules.__init__` (fragment
alternations joined with `|`, `{linelen_re}` becoming `{N}`).  A
single-character alternation such as `(\w|\))` is written as the
equivalent one-character class. -/

/-- Shorthand: the characters of a string literal. -/
def L (s : String) : List Char := s.data

/-- `\S` -/
def pyNonSpace (c : Char) : Bool := !pySpace c

/-- `\w|\)` -/
def wordOrClose (c : Char) : Bool := pyWord c || c == ')'

/-- `\w|\(` -/
def wordOrOpen (c : Char) : Bool := pyWord c || c == '('

/-- `\w|\(|\.|\+|-|\'|"` (what may follow `=`) -/
def eqAfterClass (c : Char) : Bool :=
  pyWord c || c == '(' || c == '.' || c == '+' || c == '-' ||
    c == '\'' || c == '"'

/-- `\w|\)|\.` (what may precede `=`) -/
def eqBeforeClass (c : Char) : Bool := pyWord c || c == ')' || c == '.'

/-- Sequencing of a pattern list. -/
def Re.seqs : List Re → Re
  | [] => .eps
  | [r] => r
  | r :: rs => .seq r (Re.seqs rs)

/-- `operators_re`: `\.eq\.|\.neq\.|\.gt\.|\.lt\.|\.le\.|\.leq\.|\.ge\.|\.geq\.|==|/=|<=|<|>=|>|\.and\.|\.or\.|\+|\-|\*|\/` -/
def opRe : Re := Re.alts [.lit (L ".eq."), .lit (L ".neq."), .lit (L ".gt."),
  .lit (L ".lt."), .lit (L ".le."), .lit (L ".leq."), .lit (L ".ge."),
  .lit (L ".geq."), .lit (L "=="), .lit (L "/="), .lit (L "<="),
  .lit (L "<"), .lit (L ">="), .lit (L ">"), .lit (L ".and."),
  .lit (L ".or."), .lit (L "+"), .lit (L "-"), .lit (L "*"), .lit (L "/")]

/-- `types_re`: `real|character|logical|integer` -/
def typesRe : Re := Re.alts [.lit (L "real"), .lit (L "character"),
  .lit (L "logical"), .lit (L "integer")]

/-- `types_upper`: `REAL|CHARACTER|LOGICAL|INTEGER` -/
def typesUpperRe : Re := Re.alts [.lit (L "REAL"), .lit (L "CHARACTER"),
  .lit (L "LOGICAL"), .lit (L "INTEGER")]

/-- `struct_re`: `if|select|case|while` -/
def structsRe : Re := Re.alts [.lit (L "if"), .lit (L "select"),
  .lit (L "case"), .lit (L "while")]

/-- `punctuation_re`: `,|\)|;` -/
def punctRe : Re := Re.alts [.lit (L ","), .lit (L ")"), .lit (L ";")]

/-- `(r"do (\w+)=(\S+),(\S+)", r"do \1 = \2, \3", "Missing spaces")` -/
def doRule : CRule :=
  { re := Re.seqs [.lit (L "do "), .group 1 (Re.plusP pyWord), .lit (L "="),
      .group 2 (Re.plusP pyNonSpace), .lit (L ","),
      .group 3 (Re.plusP pyNonSpace)],
    corr := .static (L "do \\1 = \\2, \\3"),
    msg := some "Missing spaces" }

/-- `(r"(\w|\))({operators})(\w|\()", r"\1 \2 \3", "Missing spaces around operator")` -/
def opAroundRule : CRule :=
  { re := Re.seqs [.group 1 (.pred wordOrClose), .group 2 opRe,
      .group 3 (.pred wordOrOpen)],
    corr := .static (L "\\1 \\2 \\3"),
    msg := some "Missing spaces around operator" }

/-- `(r"(\w|\))({operators})", r"\1 \2", "Missing space before operator")` -/
def opBeforeRule : CRule :=
  { re := Re.seqs [.group 1 (.pred wordOrClose), .group 2 opRe],
    corr := .static (L "\\1 \\2"),
    msg := some "Missing space before operator" }

/-- `(r"({operators})(\w|\()", r"\1 \2", "Missing space after operator")` -/
def opAfterRule : CRule :=
  { re := Re.seqs [.group 1 opRe, .group 2 (.pred wordOrOpen)],
    corr := .static (L "\\1 \\2"),
    msg := some "Missing space after operator" }

/-- `(r"(\S)::(\S)", r"\1 :: \2", "Missing spaces around separator")` -/
def sepAroundRule : CRule :=
  { re := Re.seqs [.group 1 (.pred pyNonSpace), .lit (L "::"),
      .group 2 (.pred pyNonSpace)],
    corr := .static (L "\\1 :: \\2"),
    msg := some "Missing spaces around separator" }

/-- `(r"(\S)::", r"\1 ::", "Missing space before separator")` -/
def sepBeforeRule : CRule :=
  { re := Re.seqs [.group 1 (.pred pyNonSpace), .lit (L "::")],
    corr := .static (L "\\1 ::"),
    msg := some "Missing space before separator" }

/-- `(r"::(\S)", r":: \1", "Missing space after separator")` -/
def sepAfterRule : CRule :=
  { re := Re.seqs [.lit (L "::"), .group 1 (.pred pyNonSpace)],
    corr := .static (L ":: \\1"),
    msg := some "Missing space after separator" }

/-- `(r"\'[^\']*\'", None, None)` -- the string-suppression rule. -/
def stringSuppressRule : CRule :=
  { re := Re.seqs [.lit (L "'"), .starP (fun c => c != '\''), .lit (L "'")],
    corr := .cnone,
    msg := none }

/-- `(r"({punctuations})(\w)", r"\1 \2", "Missing space after punctuation")` -/
def punctRule : CRule :=
  { re := Re.seqs [.group 1 punctRe, .group 2 (.pred pyWord)],
    corr := .static (L "\\1 \\2"),
    msg := some "Missing space after punctuation" }

/-- `(r"\b({types_upper})\s*::", to_lowercase, "Types should be lowercased")` -/
def typeCaseRule : CRule :=
  { re := Re.seqs [.wb, .group 1 typesUpperRe, .starP pySpace, .lit (L "::")],
    corr := .transform to_lowercase,
    msg := some "Types should be lowercased" }

/-- `(r"({structs})\(", r"\1 (", "Missing space before parenthesis")` -/
def structRule : CRule :=
  { re := Re.seqs [.group 1 structsRe, .lit (L "(")],
    corr := .static (L "\\1 ("),
    msg := some "Missing space before parenthesis" }

/-- `(r"^(\s*)use omp_lib", "\1!$ use omp_lib", 'Should prepend with "!$"')`.
The replacement is a non-raw Python string: `"\1"` is the single control
character U+0001, not a back-reference. -/
def ompLibRule : CRule :=
  { re := Re.seqs [.bol, .group 1 (.starP pySpace), .lit (L "use omp_lib")],
    corr := .static (L "\x01!$ use omp_lib"),
    msg := some "Should prepend with \"!$\"" }

/-- `(r"^.{linelen_re}.+$", None, "Line length > {linelen} characters")`
after interpolation: `^.{N}.+$` with the configured limit `N`. -/
def linelenRule (linelen : Nat) : CRule :=
  { re := Re.seqs [.bol, .repP linelen pyDot, Re.plusP pyDot, .eol],
    corr := .cnone,
    msg := some ("Line length > " ++ toString linelen ++ " characters") }

/-- `(r"\t", "  ", "Should use 2 spaces instead of tabulation")` -/
def tabRule : CRule :=
  { re := .lit (L "\t"),
    corr := .static (L "  "),
    msg := some "Should use 2 spaces instead of tabulation" }

/-- `(r"({types})\*(\w+)", r"\1(\2)", "Use new syntax TYPE(kind)")` -/
def typeKindRule : CRule :=
  { re := Re.seqs [.group 1 typesRe, .lit (L "*"), .group 2 (Re.plusP pyWord)],
    corr := .static (L "\\1(\\2)"),
    msg := some "Use new syntax TYPE(kind)" }

/-- `(r"(\w)\!", r"\1 !", "At least one space before comment")` -/
def commentBeforeRule : CRule :=
  { re := Re.seqs [.group 1 (.pred pyWord), .lit (L "!")],
    corr := .static (L "\\1 !"),
    msg := some "At least one space before comment" }

/-- `(r"\!(|\s\s+)(\w)", r"! \2", "Exactly one space after comment")` -/
def commentAfterRule : CRule :=
  { re := Re.seqs [.lit (L "!"),
      .group 1 (.alt .eps (.seq (.pred pySpace) (Re.plusP pySpace))),
      .group 2 (.pred pyWord)],
    corr := .static (L "! \\2"),
    msg := some "Exactly one space after comment" }

/-- `(r";\s*$", r"\n", 'Useless ";" at end of line')` -- the replacement
template `\n` expands to a newline character. -/
def semicolonRule : CRule :=
  { re := Re.seqs [.lit (L ";"), .starP pySpace, .eol],
    corr := .static (L "\\n"),
    msg := some "Useless \";\" at end of line" }

/-- `(r"\#endif", None, None)` -/
def endifSuppressRule : CRule :=
  { re := .lit (L "#endif"), corr := .cnone, msg := none }

/-- `(r"end(if|do|subroutine|function)", r"end \1", "Missing space after `end'")` -/
def endRule : CRule :=
  { re := Re.seqs [.lit (L "end"),
      .group 1 (Re.alts [.lit (L "if"), .lit (L "do"),
        .lit (L "subroutine"), .lit (L "function")])],
    corr := .static (L "end \\1"),
    msg := some "Missing space after `end'" }

/-- `(r"\((kind|len)=", None, None)` -/
def kindLenSuppressRule : CRule :=
  { re := Re.seqs [.lit (L "("), .group 1 (.alt (.lit (L "kind")) (.lit (L "len"))),
      .lit (L "=")],
    corr := .cnone, msg := none }

/-- `(r"write\s*\(.*\)", None, None)` -/
def writeSuppressRule : CRule :=
  { re := Re.seqs [.lit (L "write"), .starP pySpace, .lit (L "("),
      .starP pyDot, .lit (L ")")],
    corr := .cnone, msg := none }

/-- `(r"open\s*\([^\)]+\)", None, None)` -/
def openSuppressRule : CRule :=
  { re := Re.seqs [.lit (L "open"), .starP pySpace, .lit (L "("),
      Re.plusP (fun c => c != ')'), .lit (L ")")],
    corr := .cnone, msg := none }

/-- `("::", None, None)` -/
def colonSuppressRule : CRule :=
  { re := .lit (L "::"), corr := .cnone, msg := none }

/-- `(r' =(\w|\(|\.|\+|-|\'|")', r" = \1", 'Missing space after "="')` -/
def eqAfterRule : CRule :=
  { re := Re.seqs [.lit (L " ="), .group 1 (.pred eqAfterClass)],
    corr := .static (L " = \\1"),
    msg := some "Missing space after \"=\"" }

/-- `(r"(\w|\)|\.)= ", r"\1 = ", 'Missing space before "="')` -/
def eqBeforeRule : CRule :=
  { re := Re.seqs [.group 1 (.pred eqBeforeClass), .lit (L "= ")],
    corr := .static (L "\\1 = "),
    msg := some "Missing space before \"=\"" }

/-- `(r'(\w|\)|\.)=(\w|\(|\.|\+|-|\'|")', r"\1 = \2", 'Missing spaces around "="')` -/
def eqAroundRule : CRule :=
  { re := Re.seqs [.group 1 (.pred eqBeforeClass), .lit (L "="),
      .group 2 (.pred eqAfterClass)],
    corr := .static (L "\\1 = \\2"),
    msg := some "Missing spaces around \"=\"" }

/-- `(r"( \t)+$", r"", "Trailing whitespaces")` -/
def trailingWsRule : CRule :=
  { re := Re.seqs [Re.plus (.group 1 (.lit (L " \t"))), .eol],
    corr := .static [],
    msg := some "Trailing whitespaces" }

/-- `(r"\(kind\s*=\s*\d\s*\)", None, 'You should use "sp" or "dp" instead')` -/
def kindDigitRule : CRule :=
  { re := Re.seqs [.lit (L "(kind"), .starP pySpace, .lit (L "="),
      .starP pySpace, .pred pyDigit, .starP pySpace, .lit (L ")")],
    corr := .cnone,
    msg := some "You should use \"sp\" or \"dp\" instead" }

/-- `(r"\(\\([^\)]*)\\\)", r"[\1]", 'You should use "[]" instead')` -/
def bracketsRule : CRule :=
  { re := Re.seqs [.lit (L "(\\"), .group 1 (.starP (fun c => c != ')')),
      .lit (L "\\)")],
    corr := .static (L "[\\1]"),
    msg := some "You should use \"[]\" instead" }

/-- `(r"!\$", None, None)` -/
def ompSuppressRule : CRule :=
  { re := .lit (L "!$"), corr := .cnone, msg := none }

/-- `(r"(call |\w+ ?= ?|(?!\w))omp_", r"!$ \1", "Should prepend OpenMP calls with !$")` -/
def ompCallRule : CRule :=
  { re := Re.seqs [.group 1 (Re.alts [.lit (L "call "),
      Re.seqs [Re.plusP pyWord, Re.opt (.lit (L " ")), .lit (L "="),
        Re.opt (.lit (L " "))],
      .nla (.pred pyWord)]),
      .lit (L "omp_")],
    corr := .static (L "!$ \\1"),
    msg := some "Should prepend OpenMP calls with !$" }

/-- `(r'include ["\']mpif.h[\'"]', None, "Should use `use mpi_f08` instead (or `use mpi` if not available)")` -/
def mpiRule : CRule :=
  { re := Re.seqs [.lit (L "include "),
      .pred (fun c => c == '"' || c == '\''), .lit (L "mpif"), .pred pyDot,
      .lit (L "h"), .pred (fun c => c == '\'' || c == '"')],
    corr := .cnone,
    msg := some "Should use `use mpi_f08` instead (or `use mpi` if not available)" }

/-- The operator-spacing group (rules 2a-2c of the source list). -/
def opGroup : Ruleset :=
  .group [.rule opAroundRule, .rule opBeforeRule, .rule opAfterRule]

/-- The `::`-spacing group. -/
def sepGroup : Ruleset :=
  .group [.rule sepAroundRule, .rule sepBeforeRule, .rule sepAfterRule]

/-- The punctuation group, led by its string-suppression rule. -/
def punctGroup : Ruleset :=
  .group [.rule stringSuppressRule, .rule punctRule]

/-- The `end` group, led by the `#endif` suppression rule. -/
def endGroup : Ruleset :=
  .group [.rule endifSuppressRule, .rule endRule]

/-- The `=`-spacing group, led by four suppression rules. -/
def eqGroup : Ruleset :=
  .group [.rule kindLenSuppressRule, .rule writeSuppressRule,
    .rule openSuppressRule, .rule colonSuppressRule, .rule eqAfterRule,
    .rule eqBeforeRule, .rule eqAroundRule]

/-- The OpenMP group, led by the `!$` suppression rule. -/
def ompGroup : Ruleset :=
  .group [.rule ompSuppressRule, .rule ompCallRule]

/-- The whole compiled catalog, in source order: flat entries are
leaves, bracketed entries are groups. -/
def fortranRules (linelen : Nat) : Ruleset :=
  .group [
    .rule doRule,
    opGroup,
    sepGroup,
    punctGroup,
    .rule typeCaseRule,
    .rule structRule,
    .rule ompLibRule,
    .rule (linelenRule linelen),
    .rule tabRule,
    .rule typeKindRule,
    .rule commentBeforeRule,
    .rule commentAfterRule,
    .rule semicolonRule,
    endGroup,
    eqGroup,
    .rule trailingWsRule,
    .rule kindDigitRule,
    .rule bracketsRule,
    ompGroup,
    .rule mpiRule]

/-- Strip newline characters (Python `line.replace("\n", "")`). -/
def stripNewlines (s : List Char) : List Char := s.filter (fun c => c != '\n')

/-- The per-line body of `LineChecker.check_lines`: build `meta` and walk
the whole catalog from depth 0. -/
def check_line (filename : String) (lineNo : Nat) (line : List Char)
    (rules : Ruleset) (st : CheckState) :
    Option (List Char × Nat × CheckState) :=
  let meta : Meta :=
    { filename := filename, line := lineNo,
      original_line := String.mk (stripNewlines line) }
  check_ruleset line line meta rules 0 st

/-- The all-zero starting state of `LineChecker.__init__`. -/
def initState : CheckState := { errcount := 0, modifcount := 0, errors := [] }

/-! ### Unfolding and stepping lemmas for the tree walk -/

theorem check_ruleset_rule_eq (line original : List Char) (meta : Meta)
    (r : CRule) (depth : Nat) (st : CheckState) :
    check_ruleset line original meta (.rule r) depth st =
      check_rule line original meta r st := rfl

theorem check_ruleset_group_eq (line original : List Char) (meta : Meta)
    (children : List Ruleset) (depth : Nat) (st : CheckState) :
    check_ruleset line original meta (.group children) depth st =
      check_list original meta depth children line st := rfl

theorem check_list_nil_eq (original : List Char) (meta : Meta) (depth : Nat)
    (line : List Char) (st : CheckState) :
    check_list original meta depth [] line st = none := rfl

theorem check_list_cons_eq (original : List Char) (meta : Meta) (depth : Nat)
    (c : Ruleset) (cs : List Ruleset) (line : List Char) (st : CheckState) :
    check_list original meta depth (c :: cs) line st =
      match check_ruleset line original meta c (depth + 1) st with
      | none => none
      | some r =>
          if 0 < r.2.1 ∧ 1 ≤ depth then some r
          else
            match cs with
            | [] => some r
            | _ :: _ => check_list original meta depth cs r.1 r.2.2 := rfl

/-- Stepping at the top level (depth 0): the loop continues into the rest
of the list whatever the hint count of the child was. -/
theorem check_list_step0 {original : List Char} {meta : Meta} {c c2 : Ruleset}
    {cs : List Ruleset} {line l2 : List Char} {n : Nat} {st st2 : CheckState}
    (h : check_ruleset line original meta c 1 st = some (l2, n, st2)) :
    check_list original meta 0 (c :: c2 :: cs) line st =
      check_list original meta 0 (c2 :: cs) l2 st2 := by
  rw [check_list_cons_eq, h]
  simp

/-- The last child of a group determines the result. -/
theorem check_list_last {original : List Char} {meta : Meta} {depth : Nat}
    {c : Ruleset} {line : List Char} {st : CheckState}
    {r : List Char × Nat × CheckState}
    (h : check_ruleset line original meta c (depth + 1) st = some r) :
    check_list original meta depth [c] line st = some r := by
  rw [check_list_cons_eq, h]
  by_cases hb : 0 < r.2.1 ∧ 1 ≤ depth <;> simp [hb]

/-- Inside a nested group (depth at least 1), a child with at least one
hint ends the loop: the remaining siblings are never evaluated. -/
theorem check_list_break {original : List Char} {meta : Meta} {depth : Nat}
    {c : Ruleset} {cs : List Ruleset} {line l2 : List Char} {n : Nat}
    {st st2 : CheckState}
    (h : check_ruleset line original meta c (depth + 1) st = some (l2, n, st2))
    (hn : 0 < n) (hd : 1 ≤ depth) :
    check_list original meta depth (c :: cs) line st = some (l2, n, st2) := by
  rw [check_list_cons_eq, h]
  simp [hn, hd]


/-- Helper: full catalog walk over the line `do i=1,10`. -/
theorem cat_eval_do :
    check_line "f" 1 (L "do i=1,10\n") (fortranRules 120) initState =
      some ((L "do i = 1, 10\n"), 0, (CheckState.mk 3 3 ["f:1:1:\n\n do i=1,10\n  1\nWarning: Missing spaces at (1).",
 "f:1:7:\n\n do i=1,10\n        1\nWarning: Missing space after punctuation at (1).",
 "f:1:4:\n\n do i=1,10\n     1\nWarning: Missing spaces around \"=\" at (1)."])) := by
  have ha1 : check_ruleset (L "do i=1,10\n") (L "do i=1,10\n") (Meta.mk "f" 1 "do i=1,10") (.rule doRule) 1 (CheckState.mk 0 0 []) = some ((L "do i = 1, 10\n"), 1, (CheckState.mk 1 1 ["f:1:1:\n\n do i=1,10\n  1\nWarning: Missing spaces at (1)."])) := by decide
  have ha2 : check_ruleset (L "do i = 1, 10\n") (L "do i=1,10\n") (Meta.mk "f" 1 "do i=1,10") (opGroup) 1 (CheckState.mk 1 1 ["f:1:1:\n\n do i=1,10\n  1\nWarning: Missing spaces at (1)."]) = some ((L "do i = 1, 10\n"), 0, (CheckState.mk 1 1 ["f:1:1:\n\n do i=1,10\n  1\nWarning: Missing spaces at (1)."])) := by decide
  have ha3 : check_ruleset (L "do i = 1, 10\n") (L "do i=1,10\n") (Meta.mk "f" 1 "do i=1,10") (sepGroup) 1 (CheckState.mk 1 1 ["f:1:1:\n\n do i=1,10\n  1\nWarning: Missing spaces at (1)."]) = some ((L "do i = 1, 10\n"), 0, (CheckState.mk 1 1 ["f:1:1:\n\n do i=1,10\n  1\nWarning: Missing spaces at (1)."])) := by decide
  have ha4 : check_ruleset (L "do i = 1, 10\n") (L "do i=1,10\n") (Meta.mk "f" 1 "do i=1,10") (punctGroup) 1 (CheckState.mk 1 1 ["f:1:1:\n\n do i=1,10\n  1\nWarning: Missing spaces at (1)."]) = some ((L "do i = 1, 10\n"), 1, (CheckState.mk 2 2 ["f:1:1:\n\n do i=1,10\n  1\nWarning: Missing spaces at (1).",
 "f:1:7:\n\n do i=1,10\n        1\nWarning: Missing space after punctuation at (1)."])) := by decide
  have ha5 : check_ruleset (L "do i = 1, 10\n") (L "do i=1,10\n") (Meta.mk "f" 1 "do i=1,10") (.rule typeCaseRule) 1 (CheckState.mk 2 2 ["f:1:1:\n\n do i=1,10\n  1\nWarning: Missing spaces at (1).",
 "f:1:7:\n\n do i=1,10\n        1\nWarning: Missing space after punctuation at (1)."]) = some ((L "do i = 1, 10\n"), 0, (CheckState.mk 2 2 ["f:1:1:\n\n do i=1,10\n  1\nWarning: Missing spaces at (1).",
 "f:1:7:\n\n do i=1,10\n        1\nWarning: Missing space after punctuation at (1)."])) := by decide
  have ha6 : check_ruleset (L "do i = 1, 10\n") (L "do i=1,10\n") (Meta.mk "f" 1 "do i=1,10") (.rule structRule) 1 (CheckState.mk 2 2 ["f:1:1:\n\n do i=1,10\n  1\nWarning: Missing spaces at (1).",
 "f:1:7:\n\n do i=1,10\n        1\nWarning: Missing space after punctuation at (1)."]) = some ((L "do i = 1, 10\n"), 0, (CheckState.mk 2 2 ["f:1:1:\n\n do i=1,10\n  1\nWarning: Missing spaces at (1).",
 "f:1:7:\n\n do i=1,10\n        1\nWarning: Missing space after punctuation at (1)."])) := by decide
  have ha7 : check_ruleset (L "do i = 1, 10\n") (L "do i=1,10\n") (Meta.mk "f" 1 "do i=1,10") (.rule ompLibRule) 1 (CheckState.mk 2 2 ["f:1:1:\n\n do i=1,10\n  1\nWarning: Missing spaces at (1).",
 "f:1:7:\n\n do i=1,10\n        1\nWarning: Missing space after punctuation at (1)."]) = some ((L "do i = 1, 10\n"), 0, (CheckState.mk 2 2 ["f:1:1:\n\n do i=1,10\n  1\nWarning: Missing spaces at (1).",
 "f:1:7:\n\n do i=1,10\n        1\nWarning: Missing space after punctuation at (1)."])) := by decide
  have ha8 : check_ruleset (L "do i = 1, 10\n") (L "do i=1,10\n") (Meta.mk "f" 1 "do i=1,10") (.rule (linelenRule 120)) 1 (CheckState.mk 2 2 ["f:1:1:\n\n do i=1,10\n  1\nWarning: Missing spaces at (1).",
 "f:1:7:\n\n do i=1,10\n        1\nWarning: Missing space after punctuation at (1)."]) = some ((L "do i = 1, 10\n"), 0, (CheckState.mk 2 2 ["f:1:1:\n\n do i=1,10\n  1\nWarning: Missing spaces at (1).",
 "f:1:7:\n\n do i=1,10\n        1\nWarning: Missing space after punctuation at (1)."])) := by decide
  have ha9 : check_ruleset (L "do i = 1, 10\n") (L "do i=1,10\n") (Meta.mk "f" 1 "do i=1,10") (.rule tabRule) 1 (CheckState.mk 2 2 ["f:1:1:\n\n do i=1,10\n  1\nWarning: Missing spaces at (1).",
 "f:1:7:\n\n do i=1,10\n        1\nWarning: Missing space after punctuation at (1)."]) = some ((L "do i = 1, 10\n"), 0, (CheckState.mk 2 2 ["f:1:1:\n\n do i=1,10\n  1\nWarning: Missing spaces at (1).",
 "f:1:7:\n\n do i=1,10\n        1\nWarning: Missing space after punctuation at (1)."])) := by decide
  have ha10 : check_ruleset (L "do i = 1, 10\n") (L "do i=1,10\n") (Meta.mk "f" 1 "do i=1,10") (.rule typeKindRule) 1 (CheckState.mk 2 2 ["f:1:1:\n\n do i=1,10\n  1\nWarning: Missing spaces at (1).",
 "f:1:7:\n\n do i=1,10\n        1\nWarning: Missing space after punctuation at (1)."]) = some ((L "do i = 1, 10\n"), 0, (CheckState.mk 2 2 ["f:1:1:\n\n do i=1,10\n  1\nWarning: Missing spaces at (1).",
 "f:1:7:\n\n do i=1,10\n        1\nWarning: Missing space after punctuation at (1)."])) := by decide
  have ha11 : check_ruleset (L "do i = 1, 10\n") (L "do i=1,10\n") (Meta.mk "f" 1 "do i=1,10") (.rule commentBeforeRule) 1 (CheckState.mk 2 2 ["f:1:1:\n\n do i=1,10\n  1\nWarning: Missing spaces at (1).",
 "f:1:7:\n\n do i=1,10\n        1\nWarning: Missing space after punctuation at (1)."]) = some ((L "do i = 1, 10\n"), 0, (CheckState.mk 2 2 ["f:1:1:\n\n do i=1,10\n  1\nWarning: Missing spaces at (1).",
 "f:1:7:\n\n do i=1,10\n        1\nWarning: Missing space after punctuation at (1)."])) := by decide
  have ha12 : check_ruleset (L "do i = 1, 10\n") (L "do i=1,10\n") (Meta.mk "f" 1 "do i=1,10") (.rule commentAfterRule) 1 (CheckState.mk 2 2 ["f:1:1:\n\n do i=1,10\n  1\nWarning: Missing spaces at (1).",
 "f:1:7:\n\n do i=1,10\n        1\nWarning: Missing space after punctuation at (1)."]) = some ((L "do i = 1, 10\n"), 0, (CheckState.mk 2 2 ["f:1:1:\n\n do i=1,10\n  1\nWarning: Missing spaces at (1).",
 "f:1:7:\n\n do i=1,10\n        1\nWarning: Missing space after punctuation at (1)."])) := by decide
  have ha13 : check_ruleset (L "do i = 1, 10\n") (L "do i=1,10\n") (Meta.mk "f" 1 "do i=1,10") (.rule semicolonRule) 1 (CheckState.mk 2 2 ["f:1:1:\n\n do i=1,10\n  1\nWarning: Missing spaces at (1).",
 "f:1:7:\n\n do i=1,10\n        1\nWarning: Missing space after punctuation at (1)."]) = some ((L "do i = 1, 10\n"), 0, (CheckState.mk 2 2 ["f:1:1:\n\n do i=1,10\n  1\nWarning: Missing spaces at (1).",
 "f:1:7:\n\n do i=1,10\n        1\nWarning: Missing space after punctuation at (1)."])) := by decide
  have ha14 : check_ruleset (L "do i = 1, 10\n") (L "do i=1,10\n") (Meta.mk "f" 1 "do i=1,10") (endGroup) 1 (CheckState.mk 2 2 ["f:1:1:\n\n do i=1,10\n  1\nWarning: Missing spaces at (1).",
 "f:1:7:\n\n do i=1,10\n        1\nWarning: Missing space after punctuation at (1)."]) = some ((L "do i = 1, 10\n"), 0, (CheckState.mk 2 2 ["f:1:1:\n\n do i=1,10\n  1\nWarning: Missing spaces at (1).",
 "f:1:7:\n\n do i=1,10\n        1\nWarning: Missing space after punctuation at (1)."])) := by decide
  have ha15 : check_ruleset (L "do i = 1, 10\n") (L "do i=1,10\n") (Meta.mk "f" 1 "do i=1,10") (eqGroup) 1 (CheckState.mk 2 2 ["f:1:1:\n\n do i=1,10\n  1\nWarning: Missing spaces at (1).",
 "f:1:7:\n\n do i=1,10\n        1\nWarning: Missing space after punctuation at (1)."]) = some ((L "do i = 1, 10\n"), 1, (CheckState.mk 3 3 ["f:1:1:\n\n do i=1,10\n  1\nWarning: Missing spaces at (1).",
 "f:1:7:\n\n do i=1,10\n        1\nWarning: Missing space after punctuation at (1).",
 "f:1:4:\n\n do i=1,10\n     1\nWarning: Missing spaces around \"=\" at (1)."])) := by decide
  have ha16 : check_ruleset (L "do i = 1, 10\n") (L "do i=1,10\n") (Meta.mk "f" 1 "do i=1,10") (.rule trailingWsRule) 1 (CheckState.mk 3 3 ["f:1:1:\n\n do i=1,10\n  1\nWarning: Missing spaces at (1).",
 "f:1:7:\n\n do i=1,10\n        1\nWarning: Missing space after punctuation at (1).",
 "f:1:4:\n\n do i=1,10\n     1\nWarning: Missing spaces around \"=\" at (1)."]) = some ((L "do i = 1, 10\n"), 0, (CheckState.mk 3 3 ["f:1:1:\n\n do i=1,10\n  1\nWarning: Missing spaces at (1).",
 "f:1:7:\n\n do i=1,10\n        1\nWarning: Missing space after punctuation at (1).",
 "f:1:4:\n\n do i=1,10\n     1\nWarning: Missing spaces around \"=\" at (1)."])) := by decide
  have ha17 : check_ruleset (L "do i = 1, 10\n") (L "do i=1,10\n") (Meta.mk "f" 1 "do i=1,10") (.rule kindDigitRule) 1 (CheckState.mk 3 3 ["f:1:1:\n\n do i=1,10\n  1\nWarning: Missing spaces at (1).",
 "f:1:7:\n\n do i=1,10\n        1\nWarning: Missing space after punctuation at (1).",
 "f:1:4:\n\n do i=1,10\n     1\nWarning: Missing spaces around \"=\" at (1)."]) = some ((L "do i = 1, 10\n"), 0, (CheckState.mk 3 3 ["f:1:1:\n\n do i=1,10\n  1\nWarning: Missing spaces at (1).",
 "f:1:7:\n\n do i=1,10\n        1\nWarning: Missing space after punctuation at (1).",
 "f:1:4:\n\n do i=1,10\n     1\nWarning: Missing spaces around \"=\" at (1)."])) := by decide
  have ha18 : check_ruleset (L "do i = 1, 10\n") (L "do i=1,10\n") (Meta.mk "f" 1 "do i=1,10") (.rule bracketsRule) 1 (CheckState.mk 3 3 ["f:1:1:\n\n do i=1,10\n  1\nWarning: Missing spaces at (1).",
 "f:1:7:\n\n do i=1,10\n        1\nWarning: Missing space after punctuation at (1).",
 "f:1:4:\n\n do i=1,10\n     1\nWarning: Missing spaces around \"=\" at (1)."]) = some ((L "do i = 1, 10\n"), 0, (CheckState.mk 3 3 ["f:1:1:\n\n do i=1,10\n  1\nWarning: Missing spaces at (1).",
 "f:1:7:\n\n do i=1,10\n        1\nWarning: Missing space after punctuation at (1).",
 "f:1:4:\n\n do i=1,10\n     1\nWarning: Missing spaces around \"=\" at (1)."])) := by decide
  have ha19 : check_ruleset (L "do i = 1, 10\n") (L "do i=1,10\n") (Meta.mk "f" 1 "do i=1,10") (ompGroup) 1 (CheckState.mk 3 3 ["f:1:1:\n\n do i=1,10\n  1\nWarning: Missing spaces at (1).",
 "f:1:7:\n\n do i=1,10\n        1\nWarning: Missing space after punctuation at (1).",
 "f:1:4:\n\n do i=1,10\n     1\nWarning: Missing spaces around \"=\" at (1)."]) = some ((L "do i = 1, 10\n"), 0, (CheckState.mk 3 3 ["f:1:1:\n\n do i=1,10\n  1\nWarning: Missing spaces at (1).",
 "f:1:7:\n\n do i=1,10\n        1\nWarning: Missing space after punctuation at (1).",
 "f:1:4:\n\n do i=1,10\n     1\nWarning: Missing spaces around \"=\" at (1)."])) := by decide
  have ha20 : check_ruleset (L "do i = 1, 10\n") (L "do i=1,10\n") (Meta.mk "f" 1 "do i=1,10") (.rule mpiRule) 1 (CheckState.mk 3 3 ["f:1:1:\n\n do i=1,10\n  1\nWarning: Missing spaces at (1).",
 "f:1:7:\n\n do i=1,10\n        1\nWarning: Missing space after punctuation at (1).",
 "f:1:4:\n\n do i=1,10\n     1\nWarning: Missing spaces around \"=\" at (1)."]) = some ((L "do i = 1, 10\n"), 0, (CheckState.mk 3 3 ["f:1:1:\n\n do i=1,10\n  1\nWarning: Missing spaces at (1).",
 "f:1:7:\n\n do i=1,10\n        1\nWarning: Missing space after punctuation at (1).",
 "f:1:4:\n\n do i=1,10\n     1\nWarning: Missing spaces around \"=\" at (1)."])) := by decide
  show check_list (L "do i=1,10\n") (Meta.mk "f" 1 "do i=1,10") 0 [Ruleset.rule doRule, opGroup, sepGroup, punctGroup, Ruleset.rule typeCaseRule, Ruleset.rule structRule, Ruleset.rule ompLibRule, Ruleset.rule (linelenRule 120), Ruleset.rule tabRule, Ruleset.rule typeKindRule, Ruleset.rule commentBeforeRule, Ruleset.rule commentAfterRule, Ruleset.rule semicolonRule, endGroup, eqGroup, Ruleset.rule trailingWsRule, Ruleset.rule kindDigitRule, Ruleset.rule bracketsRule, ompGroup, Ruleset.rule mpiRule] (L "do i=1,10\n") (CheckState.mk 0 0 []) = some ((L "do i = 1, 10\n"), 0, (CheckState.mk 3 3 ["f:1:1:\n\n do i=1,10\n  1\nWarning: Missing spaces at (1).",
 "f:1:7:\n\n do i=1,10\n        1\nWarning: Missing space after punctuation at (1).",
 "f:1:4:\n\n do i=1,10\n     1\nWarning: Missing spaces around \"=\" at (1)."]))
  rw [check_list_step0 ha1, check_list_step0 ha2, check_list_step0 ha3, check_list_step0 ha4, check_list_step0 ha5, check_list_step0 ha6, check_list_step0 ha7, check_list_step0 ha8, check_list_step0 ha9, check_list_step0 ha10, check_list_step0 ha11, check_list_step0 ha12, check_list_step0 ha13, check_list_step0 ha14, check_list_step0 ha15, check_list_step0 ha16, check_list_step0 ha17, check_list_step0 ha18, check_list_step0 ha19,
    check_list_last ha20]

/-- Helper: full catalog walk over the line `a=b=c`. -/
theorem cat_eval_abc :
    check_line "f" 1 (L "a=b=c\n") (fortranRules 120) initState =
      some ((L "a = b=c\n"), 0, (CheckState.mk 1 1 ["f:1:1:\n\n a=b=c\n  1\nWarning: Missing spaces around \"=\" at (1)."])) := by
  have hb1 : check_ruleset (L "a=b=c\n") (L "a=b=c\n") (Meta.mk "f" 1 "a=b=c") (.rule doRule) 1 (CheckState.mk 0 0 []) = some ((L "a=b=c\n"), 0, (CheckState.mk 0 0 [])) := by decide
  have hb2 : check_ruleset (L "a=b=c\n") (L "a=b=c\n") (Meta.mk "f" 1 "a=b=c") (opGroup) 1 (CheckState.mk 0 0 []) = some ((L "a=b=c\n"), 0, (CheckState.mk 0 0 [])) := by decide
  have hb3 : check_ruleset (L "a=b=c\n") (L "a=b=c\n") (Meta.mk "f" 1 "a=b=c") (sepGroup) 1 (CheckState.mk 0 0 []) = some ((L "a=b=c\n"), 0, (CheckState.mk 0 0 [])) := by decide
  have hb4 : check_ruleset (L "a=b=c\n") (L "a=b=c\n") (Meta.mk "f" 1 "a=b=c") (punctGroup) 1 (CheckState.mk 0 0 []) = some ((L "a=b=c\n"), 0, (CheckState.mk 0 0 [])) := by decide
  have hb5 : check_ruleset (L "a=b=c\n") (L "a=b=c\n") (Meta.mk "f" 1 "a=b=c") (.rule typeCaseRule) 1 (CheckState.mk 0 0 []) = some ((L "a=b=c\n"), 0, (CheckState.mk 0 0 [])) := by decide
  have hb6 : check_ruleset (L "a=b=c\n") (L "a=b=c\n") (Meta.mk "f" 1 "a=b=c") (.rule structRule) 1 (CheckState.mk 0 0 []) = some ((L "a=b=c\n"), 0, (CheckState.mk 0 0 [])) := by decide
  have hb7 : check_ruleset (L "a=b=c\n") (L "a=b=c\n") (Meta.mk "f" 1 "a=b=c") (.rule ompLibRule) 1 (CheckState.mk 0 0 []) = some ((L "a=b=c\n"), 0, (CheckState.mk 0 0 [])) := by decide
  have hb8 : check_ruleset (L "a=b=c\n") (L "a=b=c\n") (Meta.mk "f" 1 "a=b=c") (.rule (linelenRule 120)) 1 (CheckState.mk 0 0 []) = some ((L "a=b=c\n"), 0, (CheckState.mk 0 0 [])) := by decide
  have hb9 : check_ruleset (L "a=b=c\n") (L "a=b=c\n") (Meta.mk "f" 1 "a=b=c") (.rule tabRule) 1 (CheckState.mk 0 0 []) = some ((L "a=b=c\n"), 0, (CheckState.mk 0 0 [])) := by decide
  have hb10 : check_ruleset (L "a=b=c\n") (L "a=b=c\n") (Meta.mk "f" 1 "a=b=c") (.rule typeKindRule) 1 (CheckState.mk 0 0 []) = some ((L "a=b=c\n"), 0, (CheckState.mk 0 0 [])) := by decide
  have hb11 : check_ruleset (L "a=b=c\n") (L "a=b=c\n") (Meta.mk "f" 1 "a=b=c") (.rule commentBeforeRule) 1 (CheckState.mk 0 0 []) = some ((L "a=b=c\n"), 0, (CheckState.mk 0 0 [])) := by decide
  have hb12 : check_ruleset (L "a=b=c\n") (L "a=b=c\n") (Meta.mk "f" 1 "a=b=c") (.rule commentAfterRule) 1 (CheckState.mk 0 0 []) = some ((L "a=b=c\n"), 0, (CheckState.mk 0 0 [])) := by decide
  have hb13 : check_ruleset (L "a=b=c\n") (L "a=b=c\n") (Meta.mk "f" 1 "a=b=c") (.rule semicolonRule) 1 (CheckState.mk 0 0 []) = some ((L "a=b=c\n"), 0, (CheckState.mk 0 0 [])) := by decide
  have hb14 : check_ruleset (L "a=b=c\n") (L "a=b=c\n") (Meta.mk "f" 1 "a=b=c") (endGroup) 1 (CheckState.mk 0 0 []) = some ((L "a=b=c\n"), 0, (CheckState.mk 0 0 [])) := by decide
  have hb15 : check_ruleset (L "a=b=c\n") (L "a=b=c\n") (Meta.mk "f" 1 "a=b=c") (eqGroup) 1 (CheckState.mk 0 0 []) = some ((L "a = b=c\n"), 1, (CheckState.mk 1 1 ["f:1:1:\n\n a=b=c\n  1\nWarning: Missing spaces around \"=\" at (1)."])) := by decide
  have hb16 : check_ruleset (L "a = b=c\n") (L "a=b=c\n") (Meta.mk "f" 1 "a=b=c") (.rule trailingWsRule) 1 (CheckState.mk 1 1 ["f:1:1:\n\n a=b=c\n  1\nWarning: Missing spaces around \"=\" at (1)."]) = some ((L "a = b=c\n"), 0, (CheckState.mk 1 1 ["f:1:1:\n\n a=b=c\n  1\nWarning: Missing spaces around \"=\" at (1)."])) := by decide
  have hb17 : check_ruleset (L "a = b=c\n") (L "a=b=c\n") (Meta.mk "f" 1 "a=b=c") (.rule kindDigitRule) 1 (CheckState.mk 1 1 ["f:1:1:\n\n a=b=c\n  1\nWarning: Missing spaces around \"=\" at (1)."]) = some ((L "a = b=c\n"), 0, (CheckState.mk 1 1 ["f:1:1:\n\n a=b=c\n  1\nWarning: Missing spaces around \"=\" at (1)."])) := by decide
  have hb18 : check_ruleset (L "a = b=c\n") (L "a=b=c\n") (Meta.mk "f" 1 "a=b=c") (.rule bracketsRule) 1 (CheckState.mk 1 1 ["f:1:1:\n\n a=b=c\n  1\nWarning: Missing spaces around \"=\" at (1)."]) = some ((L "a = b=c\n"), 0, (CheckState.mk 1 1 ["f:1:1:\n\n a=b=c\n  1\nWarning: Missing spaces around \"=\" at (1)."])) := by decide
  have hb19 : check_ruleset (L "a = b=c\n") (L "a=b=c\n") (Meta.mk "f" 1 "a=b=c") (ompGroup) 1 (CheckState.mk 1 1 ["f:1:1:\n\n a=b=c\n  1\nWarning: Missing spaces around \"=\" at (1)."]) = some ((L "a = b=c\n"), 0, (CheckState.mk 1 1 ["f:1:1:\n\n a=b=c\n  1\nWarning: Missing spaces around \"=\" at (1)."])) := by decide
  have hb20 : check_ruleset (L "a = b=c\n") (L "a=b=c\n") (Meta.mk "f" 1 "a=b=c") (.rule mpiRule) 1 (CheckState.mk 1 1 ["f:1:1:\n\n a=b=c\n  1\nWarning: Missing spaces around \"=\" at (1)."]) = some ((L "a = b=c\n"), 0, (CheckState.mk 1 1 ["f:1:1:\n\n a=b=c\n  1\nWarning: Missing spaces around \"=\" at (1)."])) := by decide
  show check_list (L "a=b=c\n") (Meta.mk "f" 1 "a=b=c") 0 [Ruleset.rule doRule, opGroup, sepGroup, punctGroup, Ruleset.rule typeCaseRule, Ruleset.rule structRule, Ruleset.rule ompLibRule, Ruleset.rule (linelenRule 120), Ruleset.rule tabRule, Ruleset.rule typeKindRule, Ruleset.rule commentBeforeRule, Ruleset.rule commentAfterRule, Ruleset.rule semicolonRule, endGroup, eqGroup, Ruleset.rule trailingWsRule, Ruleset.rule kindDigitRule, Ruleset.rule bracketsRule, ompGroup, Ruleset.rule mpiRule] (L "a=b=c\n") (CheckState.mk 0 0 []) = some ((L "a = b=c\n"), 0, (CheckState.mk 1 1 ["f:1:1:\n\n a=b=c\n  1\nWarning: Missing spaces around \"=\" at (1)."]))
  rw [check_list_step0 hb1, check_list_step0 hb2, check_list_step0 hb3, check_list_step0 hb4, check_list_step0 hb5, check_list_step0 hb6, check_list_step0 hb7, check_list_step0 hb8, check_list_step0 hb9, check_list_step0 hb10, check_list_step0 hb11, check_list_step0 hb12, check_list_step0 hb13, check_list_step0 hb14, check_list_step0 hb15, check_list_step0 hb16, check_list_step0 hb17, check_list_step0 hb18, check_list_step0 hb19,
    check_list_last hb20]

/-- Helper: full catalog walk over the line `a = b=c` (the catalog's own output for `a=b=c`). -/
theorem cat_eval_abc2 :
    check_line "f" 1 (L "a = b=c\n") (fortranRules 120) initState =
      some ((L "a = b = c\n"), 0, (CheckState.mk 1 1 ["f:1:5:\n\n a = b=c\n      1\nWarning: Missing spaces around \"=\" at (1)."])) := by
  have hc1 : check_ruleset (L "a = b=c\n") (L "a = b=c\n") (Meta.mk "f" 1 "a = b=c") (.rule doRule) 1 (CheckState.mk 0 0 []) = some ((L "a = b=c\n"), 0, (CheckState.mk 0 0 [])) := by decide
  have hc2 : check_ruleset (L "a = b=c\n") (L "a = b=c\n") (Meta.mk "f" 1 "a = b=c") (opGroup) 1 (CheckState.mk 0 0 []) = some ((L "a = b=c\n"), 0, (CheckState.mk 0 0 [])) := by decide
  have hc3 : check_ruleset (L "a = b=c\n") (L "a = b=c\n") (Meta.mk "f" 1 "a = b=c") (sepGroup) 1 (CheckState.mk 0 0 []) = some ((L "a = b=c\n"), 0, (CheckState.mk 0 0 [])) := by decide
  have hc4 : check_ruleset (L "a = b=c\n") (L "a = b=c\n") (Meta.mk "f" 1 "a = b=c") (punctGroup) 1 (CheckState.mk 0 0 []) = some ((L "a = b=c\n"), 0, (CheckState.mk 0 0 [])) := by decide
  have hc5 : check_ruleset (L "a = b=c\n") (L "a = b=c\n") (Meta.mk "f" 1 "a = b=c") (.rule typeCaseRule) 1 (CheckState.mk 0 0 []) = some ((L "a = b=c\n"), 0, (CheckState.mk 0 0 [])) := by decide
  have hc6 : check_ruleset (L "a = b=c\n") (L "a = b=c\n") (Meta.mk "f" 1 "a = b=c") (.rule structRule) 1 (CheckState.mk 0 0 []) = some ((L "a = b=c\n"), 0, (CheckState.mk 0 0 [])) := by decide
  have hc7 : check_ruleset (L "a = b=c\n") (L "a = b=c\n") (Meta.mk "f" 1 "a = b=c") (.rule ompLibRule) 1 (CheckState.mk 0 0 []) = some ((L "a = b=c\n"), 0, (CheckState.mk 0 0 [])) := by decide
  have hc8 : check_ruleset (L "a = b=c\n") (L "a = b=c\n") (Meta.mk "f" 1 "a = b=c") (.rule (linelenRule 120)) 1 (CheckState.mk 0 0 []) = some ((L "a = b=c\n"), 0, (CheckState.mk 0 0 [])) := by decide
  have hc9 : check_ruleset (L "a = b=c\n") (L "a = b=c\n") (Meta.mk "f" 1 "a = b=c") (.rule tabRule) 1 (CheckState.mk 0 0 []) = some ((L "a = b=c\n"), 0, (CheckState.mk 0 0 [])) := by decide
  have hc10 : check_ruleset (L "a = b=c\n") (L "a = b=c\n") (Meta.mk "f" 1 "a = b=c") (.rule typeKindRule) 1 (CheckState.mk 0 0 []) = some ((L "a = b=c\n"), 0, (CheckState.mk 0 0 [])) := by decide
  have hc11 : check_ruleset (L "a = b=c\n") (L "a = b=c\n") (Meta.mk "f" 1 "a = b=c") (.rule commentBeforeRule) 1 (CheckState.mk 0 0 []) = some ((L "a = b=c\n"), 0, (CheckState.mk 0 0 [])) := by decide
  have hc12 : check_ruleset (L "a = b=c\n") (L "a = b=c\n") (Meta.mk "f" 1 "a = b=c") (.rule commentAfterRule) 1 (CheckState.mk 0 0 []) = some ((L "a = b=c\n"), 0, (CheckState.mk 0 0 [])) := by decide
  have hc13 : check_ruleset (L "a = b=c\n") (L "a = b=c\n") (Meta.mk "f" 1 "a = b=c") (.rule semicolonRule) 1 (CheckState.mk 0 0 []) = some ((L "a = b=c\n"), 0, (CheckState.mk 0 0 [])) := by decide
  have hc14 : check_ruleset (L "a = b=c\n") (L "a = b=c\n") (Meta.mk "f" 1 "a = b=c") (endGroup) 1 (CheckState.mk 0 0 []) = some ((L "a = b=c\n"), 0, (CheckState.mk 0 0 [])) := by decide
  have hc15 : check_ruleset (L "a = b=c\n") (L "a = b=c\n") (Meta.mk "f" 1 "a = b=c") (eqGroup) 1 (CheckState.mk 0 0 []) = some ((L "a = b = c\n"), 1, (CheckState.mk 1 1 ["f:1:5:\n\n a = b=c\n      1\nWarning: Missing spaces around \"=\" at (1)."])) := by decide
  have hc16 : check_ruleset (L "a = b = c\n") (L "a = b=c\n") (Meta.mk "f" 1 "a = b=c") (.rule trailingWsRule) 1 (CheckState.mk 1 1 ["f:1:5:\n\n a = b=c\n      1\nWarning: Missing spaces around \"=\" at (1)."]) = some ((L "a = b = c\n"), 0, (CheckState.mk 1 1 ["f:1:5:\n\n a = b=c\n      1\nWarning: Missing spaces around \"=\" at (1)."])) := by decide
  have hc17 : check_ruleset (L "a = b = c\n") (L "a = b=c\n") (Meta.mk "f" 1 "a = b=c") (.rule kindDigitRule) 1 (CheckState.mk 1 1 ["f:1:5:\n\n a = b=c\n      1\nWarning: Missing spaces around \"=\" at (1)."]) = some ((L "a = b = c\n"), 0, (CheckState.mk 1 1 ["f:1:5:\n\n a = b=c\n      1\nWarning: Missing spaces around \"=\" at (1)."])) := by decide
  have hc18 : check_ruleset (L "a = b = c\n") (L "a = b=c\n") (Meta.mk "f" 1 "a = b=c") (.rule bracketsRule) 1 (CheckState.mk 1 1 ["f:1:5:\n\n a = b=c\n      1\nWarning: Missing spaces around \"=\" at (1)."]) = some ((L "a = b = c\n"), 0, (CheckState.mk 1 1 ["f:1:5:\n\n a = b=c\n      1\nWarning: Missing spaces around \"=\" at (1)."])) := by decide
  have hc19 : check_ruleset (L "a = b = c\n") (L "a = b=c\n") (Meta.mk "f" 1 "a = b=c") (ompGroup) 1 (CheckState.mk 1 1 ["f:1:5:\n\n a = b=c\n      1\nWarning: Missing spaces around \"=\" at (1)."]) = some ((L "a = b = c\n"), 0, (CheckState.mk 1 1 ["f:1:5:\n\n a = b=c\n      1\nWarning: Missing spaces around \"=\" at (1)."])) := by decide
  have hc20 : check_ruleset (L "a = b = c\n") (L "a = b=c\n") (Meta.mk "f" 1 "a = b=c") (.rule mpiRule) 1 (CheckState.mk 1 1 ["f:1:5:\n\n a = b=c\n      1\nWarning: Missing spaces around \"=\" at (1)."]) = some ((L "a = b = c\n"), 0, (CheckState.mk 1 1 ["f:1:5:\n\n a = b=c\n      1\nWarning: Missing spaces around \"=\" at (1)."])) := by decide
  show check_list (L "a = b=c\n") (Meta.mk "f" 1 "a = b=c") 0 [Ruleset.rule doRule, opGroup, sepGroup, punctGroup, Ruleset.rule typeCaseRule, Ruleset.rule structRule, Ruleset.rule ompLibRule, Ruleset.rule (linelenRule 120), Ruleset.rule tabRule, Ruleset.rule typeKindRule, Ruleset.rule commentBeforeRule, Ruleset.rule commentAfterRule, Ruleset.rule semicolonRule, endGroup, eqGroup, Ruleset.rule trailingWsRule, Ruleset.rule kindDigitRule, Ruleset.rule bracketsRule, ompGroup, Ruleset.rule mpiRule] (L "a = b=c\n") (CheckState.mk 0 0 []) = some ((L "a = b = c\n"), 0, (CheckState.mk 1 1 ["f:1:5:\n\n a = b=c\n      1\nWarning: Missing spaces around \"=\" at (1)."]))
  rw [check_list_step0 hc1, check_list_step0 hc2, check_list_step0 hc3, check_list_step0 hc4, check_list_step0 hc5, check_list_step0 hc6, check_list_step0 hc7, check_list_step0 hc8, check_list_step0 hc9, check_list_step0 hc10, check_list_step0 hc11, check_list_step0 hc12, check_list_step0 hc13, check_list_step0 hc14, check_list_step0 hc15, check_list_step0 hc16, check_list_step0 hc17, check_list_step0 hc18, check_list_step0 hc19,
    check_list_last hc20]

/-- Helper: full catalog walk over the line `do i = 1, 10` (the catalog's own output for `do i=1,10`). -/
theorem cat_eval_do2 :
    check_line "f" 1 (L "do i = 1, 10\n") (fortranRules 120) initState =
      some ((L "do i = 1, 10\n"), 0, (CheckState.mk 0 0 [])) := by
  have hd1 : check_ruleset (L "do i = 1, 10\n") (L "do i = 1, 10\n") (Meta.mk "f" 1 "do i = 1, 10") (.rule doRule) 1 (CheckState.mk 0 0 []) = some ((L "do i = 1, 10\n"), 0, (CheckState.mk 0 0 [])) := by decide
  have hd2 : check_ruleset (L "do i = 1, 10\n") (L "do i = 1, 10\n") (Meta.mk "f" 1 "do i = 1, 10") (opGroup) 1 (CheckState.mk 0 0 []) = some ((L "do i = 1, 10\n"), 0, (CheckState.mk 0 0 [])) := by decide
  have hd3 : check_ruleset (L "do i = 1, 10\n") (L "do i = 1, 10\n") (Meta.mk "f" 1 "do i = 1, 10") (sepGroup) 1 (CheckState.mk 0 0 []) = some ((L "do i = 1, 10\n"), 0, (CheckState.mk 0 0 [])) := by decide
  have hd4 : check_ruleset (L "do i = 1, 10\n") (L "do i = 1, 10\n") (Meta.mk "f" 1 "do i = 1, 10") (punctGroup) 1 (CheckState.mk 0 0 []) = some ((L "do i = 1, 10\n"), 0, (CheckState.mk 0 0 [])) := by decide
  have hd5 : check_ruleset (L "do i = 1, 10\n") (L "do i = 1, 10\n") (Meta.mk "f" 1 "do i = 1, 10") (.rule typeCaseRule) 1 (CheckState.mk 0 0 []) = some ((L "do i = 1, 10\n"), 0, (CheckState.mk 0 0 [])) := by decide
  have hd6 : check_ruleset (L "do i = 1, 10\n") (L "do i = 1, 10\n") (Meta.mk "f" 1 "do i = 1, 10") (.rule structRule) 1 (CheckState.mk 0 0 []) = some ((L "do i = 1, 10\n"), 0, (CheckState.mk 0 0 [])) := by decide
  have hd7 : check_ruleset (L "do i = 1, 10\n") (L "do i = 1, 10\n") (Meta.mk "f" 1 "do i = 1, 10") (.rule ompLibRule) 1 (CheckState.mk 0 0 []) = some ((L "do i = 1, 10\n"), 0, (CheckState.mk 0 0 [])) := by decide
  have hd8 : check_ruleset (L "do i = 1, 10\n") (L "do i = 1, 10\n") (Meta.mk "f" 1 "do i = 1, 10") (.rule (linelenRule 120)) 1 (CheckState.mk 0 0 []) = some ((L "do i = 1, 10\n"), 0, (CheckState.mk 0 0 [])) := by decide
  have hd9 : check_ruleset (L "do i = 1, 10\n") (L "do i = 1, 10\n") (Meta.mk "f" 1 "do i = 1, 10") (.rule tabRule) 1 (CheckState.mk 0 0 []) = some ((L "do i = 1, 10\n"), 0, (CheckState.mk 0 0 [])) := by decide
  have hd10 : check_ruleset (L "do i = 1, 10\n") (L "do i = 1, 10\n") (Meta.mk "f" 1 "do i = 1, 10") (.rule typeKindRule) 1 (CheckState.mk 0 0 []) = some ((L "do i = 1, 10\n"), 0, (CheckState.mk 0 0 [])) := by decide
  have hd11 : check_ruleset (L "do i = 1, 10\n") (L "do i = 1, 10\n") (Meta.mk "f" 1 "do i = 1, 10") (.rule commentBeforeRule) 1 (CheckState.mk 0 0 []) = some ((L "do i = 1, 10\n"), 0, (CheckState.mk 0 0 [])) := by decide
  have hd12 : check_ruleset (L "do i = 1, 10\n") (L "do i = 1, 10\n") (Meta.mk "f" 1 "do i = 1, 10") (.rule commentAfterRule) 1 (CheckState.mk 0 0 []) = some ((L "do i = 1, 10\n"), 0, (CheckState.mk 0 0 [])) := by decide
  have hd13 : check_ruleset (L "do i = 1, 10\n") (L "do i = 1, 10\n") (Meta.mk "f" 1 "do i = 1, 10") (.rule semicolonRule) 1 (CheckState.mk 0 0 []) = some ((L "do i = 1, 10\n"), 0, (CheckState.mk 0 0 [])) := by decide
  have hd14 : check_ruleset (L "do i = 1, 10\n") (L "do i = 1, 10\n") (Meta.mk "f" 1 "do i = 1, 10") (endGroup) 1 (CheckState.mk 0 0 []) = some ((L "do i = 1, 10\n"), 0, (CheckState.mk 0 0 [])) := by decide
  have hd15 : check_ruleset (L "do i = 1, 10\n") (L "do i = 1, 10\n") (Meta.mk "f" 1 "do i = 1, 10") (eqGroup) 1 (CheckState.mk 0 0 []) = some ((L "do i = 1, 10\n"), 0, (CheckState.mk 0 0 [])) := by decide
  have hd16 : check_ruleset (L "do i = 1, 10\n") (L "do i = 1, 10\n") (Meta.mk "f" 1 "do i = 1, 10") (.rule trailingWsRule) 1 (CheckState.mk 0 0 []) = some ((L "do i = 1, 10\n"), 0, (CheckState.mk 0 0 [])) := by decide
  have hd17 : check_ruleset (L "do i = 1, 10\n") (L "do i = 1, 10\n") (Meta.mk "f" 1 "do i = 1, 10") (.rule kindDigitRule) 1 (CheckState.mk 0 0 []) = some ((L "do i = 1, 10\n"), 0, (CheckState.mk 0 0 [])) := by decide
  have hd18 : check_ruleset (L "do i = 1, 10\n") (L "do i = 1, 10\n") (Meta.mk "f" 1 "do i = 1, 10") (.rule bracketsRule) 1 (CheckState.mk 0 0 []) = some ((L "do i = 1, 10\n"), 0, (CheckState.mk 0 0 [])) := by decide
  have hd19 : check_ruleset (L "do i = 1, 10\n") (L "do i = 1, 10\n") (Meta.mk "f" 1 "do i = 1, 10") (ompGroup) 1 (CheckState.mk 0 0 []) = some ((L "do i = 1, 10\n"), 0, (CheckState.mk 0 0 [])) := by decide
  have hd20 : check_ruleset (L "do i = 1, 10\n") (L "do i = 1, 10\n") (Meta.mk "f" 1 "do i = 1, 10") (.rule mpiRule) 1 (CheckState.mk 0 0 []) = some ((L "do i = 1, 10\n"), 0, (CheckState.mk 0 0 [])) := by decide
  show check_list (L "do i = 1, 10\n") (Meta.mk "f" 1 "do i = 1, 10") 0 [Ruleset.rule doRule, opGroup, sepGroup, punctGroup, Ruleset.rule typeCaseRule, Ruleset.rule structRule, Ruleset.rule ompLibRule, Ruleset.rule (linelenRule 120), Ruleset.rule tabRule, Ruleset.rule typeKindRule, Ruleset.rule commentBeforeRule, Ruleset.rule commentAfterRule, Ruleset.rule semicolonRule, endGroup, eqGroup, Ruleset.rule trailingWsRule, Ruleset.rule kindDigitRule, Ruleset.rule bracketsRule, ompGroup, Ruleset.rule mpiRule] (L "do i = 1, 10\n") (CheckState.mk 0 0 []) = some ((L "do i = 1, 10\n"), 0, (CheckState.mk 0 0 []))
  rw [check_list_step0 hd1, check_list_step0 hd2, check_list_step0 hd3, check_list_step0 hd4, check_list_step0 hd5, check_list_step0 hd6, check_list_step0 hd7, check_list_step0 hd8, check_list_step0 hd9, check_list_step0 hd10, check_list_step0 hd11, check_list_step0 hd12, check_list_step0 hd13, check_list_step0 hd14, check_list_step0 hd15, check_list_step0 hd16, check_list_step0 hd17, check_list_step0 hd18, check_list_step0 hd19,
    check_list_last hd20]


/-! ### Claim C1: depth-dependent group evaluation -/

/-- Claim C1: evaluation of the rule tree is depth-dependent.  A group
nested at depth at least 1 stops after its first child that reports one
or more hints -- the group's result is exactly that child's result, so
the remaining siblings contribute no diagnostics and no corrections --
while a group at the top level (depth 0) always continues to the next
child, whatever the previous child's hint count was. -/
theorem check_ruleset_depth_policy :
    (∀ (line original l2 : List Char) (meta : Meta) (c : Ruleset)
        (cs : List Ruleset) (depth n : Nat) (st st2 : CheckState),
        1 ≤ depth →
        check_ruleset line original meta c (depth + 1) st = some (l2, n, st2) →
        0 < n →
        check_ruleset line original meta (.group (c :: cs)) depth st =
          some (l2, n, st2)) ∧
    (∀ (line original l2 : List Char) (meta : Meta) (c c2 : Ruleset)
        (cs : List Ruleset) (n : Nat) (st st2 : CheckState),
        check_ruleset line original meta c 1 st = some (l2, n, st2) →
        check_ruleset line original meta (.group (c :: c2 :: cs)) 0 st =
          check_ruleset l2 original meta (.group (c2 :: cs)) 0 st2) := by
  constructor
  · intro line original l2 meta c cs depth n st st2 hd h hn
    rw [check_ruleset_group_eq]
    exact check_list_break h hn hd
  · intro line original l2 meta c c2 cs n st st2 h
    rw [check_ruleset_group_eq, check_ruleset_group_eq]
    exact check_list_step0 h

/-- Witness for C1: the string-suppression rule (no replacement, no
message) matches the line containing a quoted string, so the nested
punctuation group returns right after it with an untouched state -- the
punctuation rule never fires although the line contains a comma followed
by a word character; and at the top level the walk continues past a
child even though that child reported no hints. -/
theorem check_ruleset_depth_policy_witness :
    check_ruleset (L "'a,b'\n") (L "'a,b'\n") (Meta.mk "f" 1 "'a,b'")
        (.group [.rule stringSuppressRule, .rule punctRule]) 1
        (CheckState.mk 0 0 []) =
      some (L "'a,b'\n", 1, CheckState.mk 0 0 []) ∧
    check_ruleset (L "x\n") (L "x\n") (Meta.mk "f" 1 "x")
        (.group [.rule tabRule, .rule mpiRule]) 0 (CheckState.mk 0 0 []) =
      check_ruleset (L "x\n") (L "x\n") (Meta.mk "f" 1 "x")
        (.group [.rule mpiRule]) 0 (CheckState.mk 0 0 []) := by
  constructor
  · exact check_ruleset_depth_policy.1 (L "'a,b'\n") (L "'a,b'\n")
      (L "'a,b'\n") (Meta.mk "f" 1 "'a,b'") (.rule stringSuppressRule)
      [.rule punctRule] 1 1 (CheckState.mk 0 0 []) (CheckState.mk 0 0 [])
      (by decide) (by decide) (by decide)
  · exact check_ruleset_depth_policy.2 (L "x\n") (L "x\n") (L "x\n")
      (Meta.mk "f" 1 "x") (.rule tabRule) (.rule mpiRule) [] 0
      (CheckState.mk 0 0 []) (CheckState.mk 0 0 []) (by decide)

/-! ### Claims C2, C3, C5: the per-rule loop -/

theorem apply_correction_state_indep {rule : CRule} {l1 l2 : List Char}
    {m : RMatch} {st : CheckState} {nl1 nl2 : List Char}
    {st1 st2 : CheckState}
    (h1 : apply_correction rule l1 m st = some (nl1, st1))
    (h2 : apply_correction rule l2 m st = some (nl2, st2)) : st1 = st2 := by
  cases hc : rule.corr with
  | cnone =>
      simp only [apply_correction, hc, Option.some.injEq, Prod.mk.injEq]
        at h1 h2
      rw [← h1.2, ← h2.2]
  | static t =>
      simp only [apply_correction, hc] at h1 h2
      rcases Option.map_eq_some'.mp h1 with ⟨a1, hp1, he1⟩
      rcases Option.map_eq_some'.mp h2 with ⟨a2, hp2, he2⟩
      simp only [Prod.mk.injEq] at he1 he2
      rw [← he1.2, ← he2.2]
  | transform f =>
      simp only [apply_correction, hc, Option.some.injEq, Prod.mk.injEq]
        at h1 h2
      rw [← h1.2, ← h2.2]

theorem check_rule_go_line_indep (meta : Meta) (rule : CRule) :
    ∀ (ms : List RMatch) (l1 l2 : List Char) (hints : Nat) (st : CheckState)
      (r1 r2 : List Char × Nat × CheckState),
      check_rule_go meta rule ms l1 hints st = some r1 →
      check_rule_go meta rule ms l2 hints st = some r2 →
      r1.2.1 = r2.2.1 ∧ r1.2.2 = r2.2.2 := by
  intro ms
  induction ms with
  | nil =>
      intro l1 l2 hints st r1 r2 h1 h2
      simp only [check_rule_go, Option.some.injEq] at h1 h2
      rw [← h1, ← h2]
      exact ⟨rfl, rfl⟩
  | cons m ms ih =>
      intro l1 l2 hints st r1 r2 h1 h2
      simp only [check_rule_go] at h1 h2
      rcases ha1 : apply_correction rule l1 m st with _ | p1 <;>
        rw [ha1] at h1
      · exact absurd h1 (by simp)
      rcases ha2 : apply_correction rule l2 m st with _ | p2 <;>
        rw [ha2] at h2
      · exact absurd h2 (by simp)
      obtain ⟨nl1, st1⟩ := p1
      obtain ⟨nl2, st2⟩ := p2
      have hst : st1 = st2 := apply_correction_state_indep ha1 ha2
      subst hst
      exact ih nl1 nl2 (hints + 1) (emit_msg meta rule (m.start + 1) st1)
        r1 r2 h1 h2

/-- Claim C2: a rule's matches are located in the unmodified original
line only, so the hint count and the whole diagnostic side of the state
(violation counter, correction counter, recorded diagnostics) do not
depend on the current -- possibly already corrected -- line; only the
returned corrected text may differ. -/
theorem check_rule_scans_original_only (line1 line2 original : List Char)
    (meta : Meta) (rule : CRule) (st : CheckState)
    (r1 r2 : List Char × Nat × CheckState)
    (h1 : check_rule line1 original meta rule st = some r1)
    (h2 : check_rule line2 original meta rule st = some r2) :
    r1.2.1 = r2.2.1 ∧ r1.2.2.errcount = r2.2.2.errcount ∧
    r1.2.2.modifcount = r2.2.2.modifcount ∧
    r1.2.2.errors = r2.2.2.errors := by
  have h := check_rule_go_line_indep meta rule (finditer rule.re original)
    line1 line2 0 st r1 r2 h1 h2
  exact ⟨h.1, by rw [h.2], by rw [h.2], by rw [h.2]⟩

/-- Witness for C2: the punctuation rule, matched against the original
line `do i=1,10`, reports the same hint count, diagnostic and counters
whether the current line is still the original (where its substitution
inserts the space) or already fully corrected (where its substitution
changes nothing); only the returned text differs. -/
theorem check_rule_scans_original_only_witness :
    check_rule (L "do i=1,10\n") (L "do i=1,10\n")
        (Meta.mk "f" 1 "do i=1,10") punctRule (CheckState.mk 0 0 []) =
      some (L "do i=1, 10\n", 1, CheckState.mk 1 1
        ["f:1:7:\n\n do i=1,10\n        1\nWarning: Missing space after punctuation at (1)."]) ∧
    check_rule (L "do i = 1, 10\n") (L "do i=1,10\n")
        (Meta.mk "f" 1 "do i=1,10") punctRule (CheckState.mk 0 0 []) =
      some (L "do i = 1, 10\n", 1, CheckState.mk 1 1
        ["f:1:7:\n\n do i=1,10\n        1\nWarning: Missing space after punctuation at (1)."]) ∧
    ((1 : Nat) = 1 ∧ (1 : Nat) = 1 ∧ (1 : Nat) = 1 ∧
      (["f:1:7:\n\n do i=1,10\n        1\nWarning: Missing space after punctuation at (1)."]
        : List String) =
      ["f:1:7:\n\n do i=1,10\n        1\nWarning: Missing space after punctuation at (1)."]) := by
  refine ⟨by decide, by decide, ?_⟩
  exact check_rule_scans_original_only (L "do i=1,10\n") (L "do i = 1, 10\n")
    (L "do i=1,10\n") (Meta.mk "f" 1 "do i=1,10") punctRule
    (CheckState.mk 0 0 [])
    (L "do i=1, 10\n", 1, CheckState.mk 1 1
      ["f:1:7:\n\n do i=1,10\n        1\nWarning: Missing space after punctuation at (1)."])
    (L "do i = 1, 10\n", 1, CheckState.mk 1 1
      ["f:1:7:\n\n do i=1,10\n        1\nWarning: Missing space after punctuation at (1)."])
    (by decide) (by decide)

/-- Iterated whole-line substitution: what `check_rule` does to the
current line when a static rule matched `n` times in the original. -/
def iterSub (re : Re) (t : List Char) : Nat → Option (List Char) →
    Option (List Char)
  | 0, o => o
  | n + 1, o => iterSub re t n (o.bind (pysub re t))

theorem emit_msg_modifcount (meta : Meta) (rule : CRule) (pos : Nat)
    (st : CheckState) :
    (emit_msg meta rule pos st).modifcount = st.modifcount := by
  cases hm : rule.msg <;> simp [emit_msg, hm]

theorem check_rule_go_static (meta : Meta) (rule : CRule) (t : List Char)
    (hc : rule.corr = .static t) :
    ∀ (ms : List RMatch) (line : List Char) (hints : Nat) (st : CheckState)
      (r : List Char × Nat × CheckState),
      check_rule_go meta rule ms line hints st = some r →
      some r.1 = iterSub rule.re t ms.length (some line) ∧
      r.2.1 = hints + ms.length ∧
      r.2.2.modifcount = st.modifcount + ms.length := by
  intro ms
  induction ms with
  | nil =>
      intro line hints st r h
      simp only [check_rule_go, Option.some.injEq] at h
      rw [← h]
      exact ⟨rfl, rfl, rfl⟩
  | cons m ms ih =>
      intro line hints st r h
      simp only [check_rule_go] at h
      rcases ha : apply_correction rule line m st with _ | p <;> rw [ha] at h
      · exact absurd h (by simp)
      obtain ⟨nl, st1⟩ := p
      simp only [apply_correction, hc] at ha
      rcases Option.map_eq_some'.mp ha with ⟨a, hp, he⟩
      simp only [Prod.mk.injEq] at he
      have ih' := ih nl (hints + 1) (emit_msg meta rule (m.start + 1) st1) r h
      refine ⟨?_, ?_, ?_⟩
      · rw [ih'.1, List.length_cons]
        simp only [iterSub, Option.some_bind]
        rw [hp, he.1]
      · rw [ih'.2.1, List.length_cons]
        omega
      · rw [ih'.2.2, emit_msg_modifcount, ← he.2, List.length_cons]
        simp only []
        omega

/-- Claim C3: for a rule with a `Static` replacement template, each of
the `n` matches found in the original line triggers one whole-line
substitution on the successively updated current line -- `n` separate
substitutions in total -- and the global correction counter grows by
exactly `n`, whether or not the substitutions change the line. -/
theorem check_rule_static_per_match (line original : List Char) (meta : Meta)
    (rule : CRule) (t : List Char) (st : CheckState)
    (r : List Char × Nat × CheckState)
    (hc : rule.corr = .static t)
    (h : check_rule line original meta rule st = some r) :
    some r.1 =
      iterSub rule.re t (finditer rule.re original).length (some line) ∧
    r.2.1 = (finditer rule.re original).length ∧
    r.2.2.modifcount =
      st.modifcount + (finditer rule.re original).length := by
  have h' := check_rule_go_static meta rule t hc (finditer rule.re original)
    line 0 st r h
  refine ⟨h'.1, ?_, h'.2.2⟩
  rw [h'.2.1]
  omega

/-- Witness for C3: the punctuation rule (a static rule) matches the
original `do i=1,10` once; on the already corrected current line
`do i = 1, 10` its substitution is applied that one time, changes
nothing, and still increments the correction counter. -/
theorem check_rule_static_per_match_witness :
    punctRule.corr = .static (L "\\1 \\2") ∧
    check_rule (L "do i = 1, 10\n") (L "do i=1,10\n")
        (Meta.mk "f" 1 "do i=1,10") punctRule (CheckState.mk 0 0 []) =
      some (L "do i = 1, 10\n", 1, CheckState.mk 1 1
        ["f:1:7:\n\n do i=1,10\n        1\nWarning: Missing space after punctuation at (1)."]) ∧
    (some (L "do i = 1, 10\n") =
      iterSub punctRule.re (L "\\1 \\2")
        (finditer punctRule.re (L "do i=1,10\n")).length
        (some (L "do i = 1, 10\n")) ∧
     (1 : Nat) = (finditer punctRule.re (L "do i=1,10\n")).length ∧
     (1 : Nat) = 0 + (finditer punctRule.re (L "do i=1,10\n")).length) := by
  refine ⟨rfl, by decide, ?_⟩
  exact check_rule_static_per_match (L "do i = 1, 10\n") (L "do i=1,10\n")
    (Meta.mk "f" 1 "do i=1,10") punctRule (L "\\1 \\2") (CheckState.mk 0 0 [])
    (L "do i = 1, 10\n", 1, CheckState.mk 1 1
      ["f:1:7:\n\n do i=1,10\n        1\nWarning: Missing space after punctuation at (1)."])
    rfl (by decide)

theorem apply_correction_err {rule : CRule} {l : List Char} {m : RMatch}
    {st : CheckState} {nl : List Char} {st1 : CheckState}
    (h : apply_correction rule l m st = some (nl, st1)) :
    st1.errcount = st.errcount ∧ st1.errors = st.errors := by
  cases hc : rule.corr with
  | cnone =>
      simp only [apply_correction, hc, Option.some.injEq, Prod.mk.injEq] at h
      rw [← h.2]
      exact ⟨rfl, rfl⟩
  | static t =>
      simp only [apply_correction, hc] at h
      rcases Option.map_eq_some'.mp h with ⟨a, hp, he⟩
      simp only [Prod.mk.injEq] at he
      rw [← he.2]
      exact ⟨rfl, rfl⟩
  | transform f =>
      simp only [apply_correction, hc, Option.some.injEq, Prod.mk.injEq] at h
      rw [← h.2]
      exact ⟨rfl, rfl⟩

theorem check_rule_go_messages (meta : Meta) (rule : CRule) (msg : String)
    (hm : rule.msg = some msg) :
    ∀ (ms : List RMatch) (line : List Char) (hints : Nat) (st : CheckState)
      (r : List Char × Nat × CheckState),
      check_rule_go meta rule ms line hints st = some r →
      r.2.2.errcount = st.errcount + ms.length ∧
      r.2.2.errors = st.errors ++
        ms.map (fun m => fmt_err msg meta (m.start + 1)) := by
  intro ms
  induction ms with
  | nil =>
      intro line hints st r h
      simp only [check_rule_go, Option.some.injEq] at h
      rw [← h]
      exact ⟨rfl, by simp⟩
  | cons m ms ih =>
      intro line hints st r h
      simp only [check_rule_go] at h
      rcases ha : apply_correction rule line m st with _ | p <;> rw [ha] at h
      · exact absurd h (by simp)
      obtain ⟨nl, st1⟩ := p
      have hpres := apply_correction_err ha
      have ih' := ih nl (hints + 1) (emit_msg meta rule (m.start + 1) st1) r h
      have hemit : (emit_msg meta rule (m.start + 1) st1).errcount =
          st1.errcount + 1 ∧
          (emit_msg meta rule (m.start + 1) st1).errors =
            st1.errors ++ [fmt_err msg meta (m.start + 1)] := by
        simp [emit_msg, hm]
      refine ⟨?_, ?_⟩
      · rw [ih'.1, hemit.1, hpres.1, List.length_cons]
        omega
      · rw [ih'.2, hemit.2, hpres.2, List.map_cons, List.append_assoc,
          List.singleton_append]

/-- Claim C5: a rule with a message emits, for each match of its pattern
in the original line, one diagnostic whose column is the 0-based match
start plus one, and each emission bumps the violation counter by one:
over the whole rule, `errcount` grows by the number of matches and the
diagnostics recorded are exactly the formatted messages at columns
`start + 1`, in match order. -/
theorem check_rule_diagnostic_columns (line original : List Char)
    (meta : Meta) (rule : CRule) (msg : String) (st : CheckState)
    (r : List Char × Nat × CheckState)
    (hm : rule.msg = some msg)
    (h : check_rule line original meta rule st = some r) :
    r.2.2.errcount = st.errcount + (finditer rule.re original).length ∧
    r.2.2.errors = st.errors ++ (finditer rule.re original).map
      (fun m => fmt_err msg meta (m.start + 1)) :=
  check_rule_go_messages meta rule msg hm (finditer rule.re original)
    line 0 st r h

/-- Witness for C5: the tabulation rule matches `a\tb\t` at 0-based
positions 1 and 3 and emits two diagnostics, at columns 2 and 4, while
the violation counter grows from 0 to 2. -/
theorem check_rule_diagnostic_columns_witness :
    tabRule.msg = some "Should use 2 spaces instead of tabulation" ∧
    check_rule (L "a\tb\t\n") (L "a\tb\t\n") (Meta.mk "f" 1 "a\tb\t")
        tabRule (CheckState.mk 0 0 []) =
      some (L "a  b  \n", 2, CheckState.mk 2 2
        ["f:1:2:\n\n a\tb\t\n   1\nWarning: Should use 2 spaces instead of tabulation at (1).",
         "f:1:4:\n\n a\tb\t\n     1\nWarning: Should use 2 spaces instead of tabulation at (1)."]) ∧
    ((2 : Nat) = 0 + (finditer tabRule.re (L "a\tb\t\n")).length ∧
     (["f:1:2:\n\n a\tb\t\n   1\nWarning: Should use 2 spaces instead of tabulation at (1).",
       "f:1:4:\n\n a\tb\t\n     1\nWarning: Should use 2 spaces instead of tabulation at (1)."]
        : List String) =
       [] ++ (finditer tabRule.re (L "a\tb\t\n")).map
         (fun m => fmt_err "Should use 2 spaces instead of tabulation"
           (Meta.mk "f" 1 "a\tb\t") (m.start + 1))) := by
  refine ⟨rfl, by decide, ?_⟩
  exact check_rule_diagnostic_columns (L "a\tb\t\n") (L "a\tb\t\n")
    (Meta.mk "f" 1 "a\tb\t") tabRule
    "Should use 2 spaces instead of tabulation" (CheckState.mk 0 0 [])
    (L "a  b  \n", 2, CheckState.mk 2 2
      ["f:1:2:\n\n a\tb\t\n   1\nWarning: Should use 2 spaces instead of tabulation at (1).",
       "f:1:4:\n\n a\tb\t\n     1\nWarning: Should use 2 spaces instead of tabulation at (1)."])
    rfl (by decide)

/-! ### Claim C6: the diagnostic block -/

/-- Counterexample for C6: for a match at 0-based start 0 (column 1) on
the original line `ab`, the snippet line is ` ab`, whose matched
character `a` sits at index 1; but in the rendered block the marker line
is `  1`: its index 1 holds a space and the digit 1 sits at index 2, one
column to the right of the matched character -- the digit is not
directly under the matched column. -/
theorem fmt_err_marker_misaligned :
    (fmt_err "m" (Meta.mk "f" 1 "ab") 1).data.splitOn '\n' =
      [L "f:1:1:", [], L " ab", L "  1", L "Warning: m at (1)."] ∧
    (L " ab").get? 1 = some 'a' ∧
    (L "  1").get? 1 = some ' ' ∧
    (L "  1").get? 2 = some '1' := by
  refine ⟨by decide, by decide, by decide, by decide⟩

/-- Claim C6 amended: every diagnostic is rendered as the four-line
block `<filename>:<line>:<col>:`, blank line, one space plus the
original line, then a marker line made of one space plus `col` spaces
plus the digit 1, then `Warning: <message> at (1).`; the digit 1 is thus
preceded by `col + 1` characters on its line and lands one column to the
right of where the match-start character appears in the snippet line,
not directly under it. -/
theorem fmt_err_block_layout (msg fname orig : String) (ln pos : Nat) :
    fmt_err msg (Meta.mk fname ln orig) pos =
      fname ++ ":" ++ toString ln ++ ":" ++ toString pos ++ ":\n\n " ++
        orig ++ "\n " ++
        (String.mk (List.replicate pos ' ') ++ "1") ++ "\nWarning: " ++
        msg ++ " at (1)." ∧
    (" " ++ String.mk (List.replicate pos ' ')).data =
      ' ' :: List.replicate pos ' ' ∧
    (' ' :: List.replicate pos ' ').length = pos + 1 := by
  refine ⟨rfl, rfl, by simp⟩

/-! ### Claim C7: the catalog on `do i=1,10` -/

/-- Counterexample for C7: the full catalog applied to `do i=1,10`
increments the correction counter three times, not two. -/
theorem catalog_do_line_three_corrections :
    (check_line "f" 1 (L "do i=1,10\n") (fortranRules 120) initState).map
      (fun r => r.2.2.modifcount) = some 3 ∧
    ¬ (check_line "f" 1 (L "do i=1,10\n") (fortranRules 120) initState).map
      (fun r => r.2.2.modifcount) = some 2 := by
  rw [cat_eval_do]
  exact ⟨rfl, by decide⟩

/-- Claim C7 amended: the full catalog on `do i=1,10` yields
`do i = 1, 10` with exactly three corrections -- the do-statement
spacing rule (column 1), the punctuation rule (column 7) and the
missing-spaces-around-`=` rule (column 4) -- each contributing one
diagnostic. -/
theorem catalog_do_line_result :
    check_line "f" 1 (L "do i=1,10\n") (fortranRules 120) initState =
      some (L "do i = 1, 10\n", 0, CheckState.mk 3 3
        [fmt_err "Missing spaces" (Meta.mk "f" 1 "do i=1,10") 1,
         fmt_err "Missing space after punctuation"
           (Meta.mk "f" 1 "do i=1,10") 7,
         fmt_err "Missing spaces around \"=\""
           (Meta.mk "f" 1 "do i=1,10") 4]) := by
  rw [cat_eval_do]
  rfl

/-! ### Claim C8: the catalog run twice -/

/-- Counterexample for C8: the catalog's output is not always a fixed
point.  On input `a=b=c` the first pass produces `a = b=c`; feeding that
line back in, the second pass changes it again and emits a diagnostic. -/
theorem catalog_not_fixed_point :
    (check_line "f" 1 (L "a=b=c\n") (fortranRules 120) initState).map
      (fun r => r.1) = some (L "a = b=c\n") ∧
    ¬ (check_line "f" 1 (L "a = b=c\n") (fortranRules 120) initState).map
      (fun r => r.1) = some (L "a = b=c\n") ∧
    ¬ (check_line "f" 1 (L "a = b=c\n") (fortranRules 120) initState).map
      (fun r => r.2.2.errcount) = some 0 := by
  refine ⟨?_, ?_, ?_⟩
  · rw [cat_eval_abc]
    rfl
  · rw [cat_eval_abc2]
    decide
  · rw [cat_eval_abc2]
    decide

/-- Claim C8 amended: a second pass is stable on the catalog's output
for `do i=1,10`: that first pass yields `do i = 1, 10`, and the catalog
applied to `do i = 1, 10` returns the very same line with zero
diagnostics and zero corrections (this stability is per-example, not a
property of every input -- see the counterexample). -/
theorem catalog_do_line_second_pass_stable :
    (check_line "f" 1 (L "do i=1,10\n") (fortranRules 120) initState).map
      (fun r => r.1) = some (L "do i = 1, 10\n") ∧
    check_line "f" 1 (L "do i = 1, 10\n") (fortranRules 120) initState =
      some (L "do i = 1, 10\n", 0, CheckState.mk 0 0 []) := by
  constructor
  · rw [cat_eval_do]
    rfl
  · exact cat_eval_do2

/-! ### Claim C9: build-time versus evaluation-time failure -/

/-- An un-compiled rule tree entry, mirroring the tuple/list shape of
`FortranRules.rules`: a tuple `(rxp, replacement, msg)` or a list. -/
inductive RuleTemplate where
  | rule (rxp : String) (corr : Correction) (msg : Option String)
  | list (children : List RuleTemplate)

mutual

/-- `FortranRules.format_rule`, parameterised by its two external
collaborators: `fmtStr` is `str.format(**fmt)` (`none` = `KeyError` on
an unresolved placeholder) and `compile` is `re.compile` (`none` =
`re.error`).  A tuple formats its message, then formats and compiles its
pattern; a list formats its entries recursively; any failure rejects the
whole build. -/
def format_rule (compile : String → Option Re)
    (fmtStr : String → Option String) : RuleTemplate → Option Ruleset
  | .rule rxp corr msg =>
      (match msg with
        | none => some none
        | some mtext => (fmtStr mtext).map some).bind
        (fun msg2 => (fmtStr rxp).bind (fun pat => (compile pat).map
          (fun re => .rule ⟨re, corr, msg2⟩)))
  | .list ts => (format_rules compile fmtStr ts).map .group

/-- The recursion of `format_rule` over a list entry. -/
def format_rules (compile : String → Option Re)
    (fmtStr : String → Option String) :
    List RuleTemplate → Option (List Ruleset)
  | [] => some []
  | t :: ts => (format_rule compile fmtStr t).bind
      (fun r => (format_rules compile fmtStr ts).map (fun rs => r :: rs))

end

/-- Counterexample for C9: the empty list is accepted by catalog
construction -- `format_rule` returns it as an (empty) compiled group --
but evaluating that group raises (`check_ruleset`'s loop never binds
`hints` and the trailing `return` fails): rejection happens at
evaluation time, not at build time. -/
theorem empty_group_builds_but_fails :
    format_rule (fun _ => some Re.eps) (fun s => some s) (.list []) =
      some (.group []) ∧
    check_ruleset (L "x") (L "x") (Meta.mk "f" 1 "x") (.group [])
      0 (CheckState.mk 0 0 []) = none :=
  ⟨rfl, rfl⟩

/-- A substitution template that expands for every match (for example
any backslash-free template, or one whose numeric references are always
bound -- the shipped catalog's templates are of this kind). -/
def SafeTemplate (t : List Char) : Prop :=
  ∀ (s : List Char) (m : RMatch), (expandTemplate s m t).isSome

/-- A rule whose correction step cannot raise. -/
def SafeRule (r : CRule) : Prop :=
  match r.corr with
  | .static t => SafeTemplate t
  | _ => True

/-- Rule trees with no empty group and only safe static templates. -/
inductive GoodTree : Ruleset → Prop where
  | rule (r : CRule) : SafeRule r → GoodTree (.rule r)
  | group (cs : List Ruleset) : cs ≠ [] → (∀ c ∈ cs, GoodTree c) →
      GoodTree (.group cs)

theorem expandTemplate_no_backslash (s : List Char) (m : RMatch) :
    ∀ (t : List Char), '\\' ∉ t → expandTemplate s m t = some t := by
  intro t
  induction t with
  | nil => intro _; rfl
  | cons c rest ih =>
      intro h
      have hc : ¬ c = '\\' := fun hx => h (hx ▸ List.mem_cons_self c rest)
      have hr := ih (fun hm => h (List.mem_cons_of_mem c hm))
      rw [expandTemplate.eq_def]
      simp [hc, hr]

theorem pysubGo_safe (tmpl s : List Char) (hsafe : SafeTemplate tmpl) :
    ∀ (ms : List RMatch) (cur : Nat), (pysubGo tmpl s ms cur).isSome := by
  intro ms
  induction ms with
  | nil => intro cur; simp [pysubGo]
  | cons m ms ih =>
      intro cur
      obtain ⟨rep, hrep⟩ := Option.isSome_iff_exists.mp (hsafe s m)
      obtain ⟨rest, hrest⟩ := Option.isSome_iff_exists.mp (ih m.stop)
      simp [pysubGo, hrep, hrest]

theorem apply_correction_safe (rule : CRule) (hsafe : SafeRule rule)
    (l : List Char) (m : RMatch) (st : CheckState) :
    (apply_correction rule l m st).isSome := by
  cases hc : rule.corr with
  | cnone => simp [apply_correction, hc]
  | transform f => simp [apply_correction, hc]
  | static t =>
      have hst : SafeTemplate t := by
        simp only [SafeRule, hc] at hsafe
        exact hsafe
      obtain ⟨nl, hnl⟩ := Option.isSome_iff_exists.mp
        (pysubGo_safe t l hst (finditer rule.re l) 0)
      simp only [apply_correction, hc]
      rw [show pysub rule.re t l = pysubGo t l (finditer rule.re l) 0 from rfl,
        hnl]
      rfl

theorem check_rule_go_safe (meta : Meta) (rule : CRule)
    (hsafe : SafeRule rule) :
    ∀ (ms : List RMatch) (line : List Char) (hints : Nat) (st : CheckState),
      (check_rule_go meta rule ms line hints st).isSome := by
  intro ms
  induction ms with
  | nil => intro line hints st; simp [check_rule_go]
  | cons m ms ih =>
      intro line hints st
      obtain ⟨p, hp⟩ := Option.isSome_iff_exists.mp
        (apply_correction_safe rule hsafe line m st)
      simp only [check_rule_go, hp]
      exact ih p.1 (hints + 1) (emit_msg meta rule (m.start + 1) p.2)

theorem check_list_safe (original : List Char) (meta : Meta) (depth : Nat) :
    ∀ (cs : List Ruleset), cs ≠ [] →
      (∀ c ∈ cs, ∀ (line : List Char) (st : CheckState),
        (check_ruleset line original meta c (depth + 1) st).isSome) →
      ∀ (line : List Char) (st : CheckState),
        (check_list original meta depth cs line st).isSome := by
  intro cs
  induction cs with
  | nil => intro h; exact absurd rfl h
  | cons c cs ih =>
      intro _ hall line st
      obtain ⟨r, hr⟩ := Option.isSome_iff_exists.mp
        (hall c (List.mem_cons_self c cs) line st)
      rw [check_list_cons_eq, hr]
      by_cases hb : 0 < r.2.1 ∧ 1 ≤ depth
      · simp [hb]
      · simp only [if_neg hb]
        cases cs with
        | nil => simp
        | cons c2 cs2 =>
            exact ih (by simp)
              (fun c hc line st => hall c (List.mem_cons_of_mem _ hc) line st)
              r.1 r.2.2

/-- Claim C9 amended: catalog-build acceptance alone does not make
evaluation exception-free (the empty group builds but fails to evaluate,
and replacement templates are never validated at build time); evaluation
never raises on a tree all of whose groups are nonempty and whose static
templates always expand -- the shipped catalog is of this shape. -/
theorem eval_total_on_good_trees (rs : Ruleset) (hg : GoodTree rs) :
    ∀ (line original : List Char) (meta : Meta) (depth : Nat)
      (st : CheckState),
      (check_ruleset line original meta rs depth st).isSome := by
  induction hg with
  | rule r hr =>
      intro line original meta depth st
      rw [check_ruleset_rule_eq]
      exact check_rule_go_safe meta r hr (finditer r.re original) line 0 st
  | group cs hne hall ih =>
      intro line original meta depth st
      rw [check_ruleset_group_eq]
      exact check_list_safe original meta depth cs hne
        (fun c hc line st => ih c hc line original meta (depth + 1) st)
        line st

/-- Witness for C9's amended statement: the tabulation rule alone (a
nonempty group with a backslash-free static template) evaluates without
raising. -/
theorem eval_total_on_good_trees_witness :
    (check_ruleset (L "a\tb") (L "a\tb") (Meta.mk "f" 1 "a\tb")
      (.group [.rule tabRule]) 0 (CheckState.mk 0 0 [])).isSome := by
  have hsafe : SafeRule tabRule := by
    show SafeTemplate (L "  ")
    intro s m
    rw [expandTemplate_no_backslash s m (L "  ") (by decide)]
    rfl
  have hg : GoodTree (.group [.rule tabRule]) := by
    refine GoodTree.group _ (by simp) ?_
    intro c hc
    simp only [List.mem_singleton] at hc
    rw [hc]
    exact GoodTree.rule tabRule hsafe
  exact eval_total_on_good_trees (.group [.rule tabRule]) hg
    (L "a\tb") (L "a\tb") (Meta.mk "f" 1 "a\tb") 0 (CheckState.mk 0 0 [])

/-! ### Engine lemmas for the two `^`-anchored rules (claims C4 and C10) -/

theorem flatMap_nil_of_forall {α β : Type} (l : List α) (f : α → List β)
    (h : ∀ x ∈ l, f x = []) : l.flatMap f = [] := by
  induction l with
  | nil => rfl
  | cons x xs ih =>
      rw [List.flatMap_cons, h x (List.mem_cons_self x xs),
        ih (fun y hy => h y (List.mem_cons_of_mem x hy))]
      rfl

theorem flatMap_singleton {α β : Type} (a : α) (g : α → List β) :
    [a].flatMap g = g a := by
  rw [List.flatMap_cons, List.flatMap_nil, List.append_nil]

theorem flatMap_range_desc {β : Type} (g : Nat → List β) (pos m : Nat)
    (h : ∀ e, e < pos + m → g e = []) :
    ((List.range (m + 1)).map (fun i => pos + (m - i))).flatMap g =
      g (pos + m) := by
  rw [List.range_succ_eq_map, List.map_cons, List.flatMap_cons]
  have hrest : (((List.range m).map Nat.succ).map
      (fun i => pos + (m - i))).flatMap g = [] := by
    apply flatMap_nil_of_forall
    intro x hx
    simp only [List.map_map, List.mem_map, List.mem_range,
      Function.comp] at hx
    obtain ⟨i, hi, rfl⟩ := hx
    exact h _ (by omega)
  rw [hrest, List.append_nil, Nat.sub_zero]

/-- Greedy backtracking through a one-character-class star: when every
stopping point short of the maximal munch makes the continuation fail,
the star contributes exactly its maximal extent. -/
theorem ends_starP_flatMap {β : Type} (s : List Char) (p : Char → Bool)
    (pos : Nat) (caps : Caps) (g : Nat × Caps → List β)
    (h : ∀ e, e < pos + countWhileFrom p s pos → g (e, caps) = []) :
    (ends s (.starP p) pos caps).flatMap g =
      g (pos + countWhileFrom p s pos, caps) := by
  show ((List.range (countWhileFrom p s pos + 1)).map
      (fun i => (pos + (countWhileFrom p s pos - i), caps))).flatMap g = _
  have hfuse : (List.range (countWhileFrom p s pos + 1)).map
      (fun i => (pos + (countWhileFrom p s pos - i), caps)) =
      ((List.range (countWhileFrom p s pos + 1)).map
        (fun i => pos + (countWhileFrom p s pos - i))).map
        (fun e => (e, caps)) := by
    rw [List.map_map]
    rfl
  rw [hfuse, List.flatMap_map]
  exact flatMap_range_desc (fun e => g (e, caps)) pos _ h

theorem takeWhile_append_stop (p : Char → Bool) :
    ∀ (a : List Char) (x : Char) (r : List Char),
      (∀ c ∈ a, p c = true) → p x = false →
      (a ++ x :: r).takeWhile p = a := by
  intro a
  induction a with
  | nil =>
      intro x r _ hx
      simp [List.takeWhile_cons, hx]
  | cons c cs ih =>
      intro x r hall hx
      have hc : p c = true := hall c (List.mem_cons_self c cs)
      simp only [List.cons_append, List.takeWhile_cons, hc, if_true]
      rw [ih x r (fun d hd => hall d (List.mem_cons_of_mem c hd)) hx]

theorem countWhileFrom_zero (p : Char → Bool) (a : List Char) (x : Char)
    (r : List Char) (hall : ∀ c ∈ a, p c = true) (hx : p x = false) :
    countWhileFrom p (a ++ x :: r) 0 = a.length := by
  unfold countWhileFrom
  rw [List.drop_zero, takeWhile_append_stop p a x r hall hx]

theorem countWhileFrom_at (p : Char → Bool) (s : List Char) (k : Nat)
    (hk : k ≤ s.length) (hall : ∀ c ∈ s, p c = true) (x : Char)
    (hx : p x = false) :
    countWhileFrom p (s ++ [x]) k = s.length - k := by
  unfold countWhileFrom
  rw [List.drop_append_eq_append_drop]
  have h1 : k - s.length = 0 := by omega
  rw [h1, List.drop_zero,
    takeWhile_append_stop p (s.drop k) x []
      (fun c hc => hall c (List.drop_subset k s hc)) hx,
    List.length_drop]

theorem drop_replicate_append (a : Char) (x : List Char) :
    ∀ (n e : Nat), e ≤ n →
      (List.replicate n a ++ x).drop e = List.replicate (n - e) a ++ x := by
  intro n
  induction n with
  | zero =>
      intro e he
      have : e = 0 := Nat.le_zero.mp he
      rw [this]
      rfl
  | succ n ih =>
      intro e he
      cases e with
      | zero => rfl
      | succ e' =>
          rw [List.replicate_succ, List.cons_append, List.drop_succ_cons,
            ih e' (Nat.succ_le_succ_iff.mp he), Nat.succ_sub_succ]

theorem litAt_append_self : ∀ (cs r : List Char), litAt cs (cs ++ r) = true := by
  intro cs
  induction cs with
  | nil => intro r; rfl
  | cons c cs ih => intro r; simp [litAt, ih]

theorem litAt_cons_false (c d : Char) (cs ds : List Char) (h : ¬ c = d) :
    litAt (c :: cs) (d :: ds) = false := by
  simp [litAt, h]

theorem ends_bol_seq_pos (s : List Char) (x : Re) (pos : Nat) (caps : Caps)
    (h : ¬ pos = 0) : ends s (.seq .bol x) pos caps = [] := by
  simp [ends, h]

theorem matchAt_bol_seq_pos (s : List Char) (x : Re) (pos : Nat)
    (h : ¬ pos = 0) : matchAt (.seq .bol x) s pos = none := by
  unfold matchAt
  rw [ends_bol_seq_pos s x pos [] h]
  rfl

theorem finditerGo_none_from (re : Re) (s : List Char) (p0 : Nat)
    (h : ∀ q, p0 ≤ q → matchAt re s q = none) :
    ∀ (fuel p : Nat), p0 ≤ p → finditerGo re s fuel p = [] := by
  intro fuel
  induction fuel with
  | zero => intro p _; rfl
  | succ fuel ih =>
      intro p hp
      rw [finditerGo.eq_def]
      by_cases hgt : s.length < p
      · simp [hgt]
      · simp only [hgt, if_false, h p hp]
        exact ih (p + 1) (Nat.le_succ_of_le hp)

/-- `finditer` for a `^`-anchored pattern: a nonempty match at position 0
is the only match of the line. -/
theorem finditer_anchored_single (re : Re) (s : List Char) (e : Nat)
    (caps : Caps) (h0 : matchAt re s 0 = some (e, caps)) (he : 0 < e)
    (hp : ∀ q, 1 ≤ q → matchAt re s q = none) :
    finditer re s = [⟨0, e, caps⟩] := by
  unfold finditer
  rw [show s.length + 2 = (s.length + 1) + 1 from rfl, finditerGo.eq_def]
  simp only [Nat.not_lt.mpr (Nat.zero_le s.length), if_false, h0]
  rw [if_pos he, finditerGo_none_from re s 1 hp (s.length + 1) e he]

theorem pysub_single (re : Re) (tmpl s : List Char) (e : Nat) (caps : Caps)
    (rep : List Char)
    (hfind : finditer re s = [⟨0, e, caps⟩])
    (hexp : expandTemplate s ⟨0, e, caps⟩ tmpl = some rep) :
    pysub re tmpl s = some (rep ++ s.drop e) := by
  unfold pysub
  rw [hfind]
  simp [pysubGo, hexp, sliceList]

theorem check_rule_no_match (line original : List Char) (meta : Meta)
    (rule : CRule) (st : CheckState)
    (hfind : finditer rule.re original = []) :
    check_rule line original meta rule st = some (line, 0, st) := by
  unfold check_rule
  rw [hfind]
  rfl

theorem check_rule_single_static (line original : List Char) (meta : Meta)
    (rule : CRule) (t : List Char) (msg : String) (st : CheckState)
    (e : Nat) (caps : Caps) (nl : List Char)
    (hc : rule.corr = .static t) (hm : rule.msg = some msg)
    (hfind : finditer rule.re original = [⟨0, e, caps⟩])
    (hsub : pysub rule.re t line = some nl) :
    check_rule line original meta rule st =
      some (nl, 1, CheckState.mk (st.errcount + 1) (st.modifcount + 1)
        (st.errors ++ [fmt_err msg meta 1])) := by
  unfold check_rule
  rw [hfind]
  simp [check_rule_go, apply_correction, emit_msg, hc, hm, hsub]

theorem check_rule_single_detect (line original : List Char) (meta : Meta)
    (rule : CRule) (msg : String) (st : CheckState) (a e : Nat)
    (caps : Caps)
    (hc : rule.corr = .cnone) (hm : rule.msg = some msg)
    (hfind : finditer rule.re original = [⟨a, e, caps⟩]) :
    check_rule line original meta rule st =
      some (line, 1, CheckState.mk (st.errcount + 1) st.modifcount
        (st.errors ++ [fmt_err msg meta (a + 1)])) := by
  unfold check_rule
  rw [hfind]
  simp [check_rule_go, apply_correction, emit_msg, hc, hm]

theorem ends_seq (s : List Char) (a b : Re) (pos : Nat) (caps : Caps) :
    ends s (.seq a b) pos caps =
      (ends s a pos caps).flatMap (fun e => ends s b e.1 e.2) := rfl

theorem ends_bol_zero (s : List Char) (caps : Caps) :
    ends s .bol 0 caps = [(0, caps)] := rfl

theorem ends_lit (s : List Char) (cs : List Char) (pos : Nat) (caps : Caps) :
    ends s (.lit cs) pos caps =
      if litAt cs (s.drop pos) then [(pos + cs.length, caps)] else [] := rfl

theorem ends_group (s : List Char) (i : Nat) (r : Re) (pos : Nat)
    (caps : Caps) :
    ends s (.group i r) pos caps =
      (ends s r pos caps).map (fun e => (e.1, (i, pos, e.1) :: e.2)) := rfl

theorem ends_pred (s : List Char) (p : Char → Bool) (pos : Nat)
    (caps : Caps) :
    ends s (.pred p) pos caps =
      match s.get? pos with
      | some c => if p c then [(pos + 1, caps)] else []
      | none => [] := rfl

theorem ends_repP (s : List Char) (nn : Nat) (p : Char → Bool) (pos : Nat)
    (caps : Caps) :
    ends s (.repP nn p) pos caps =
      if nn ≤ countWhileFrom p s pos then [(pos + nn, caps)] else [] := rfl

theorem ends_eol (s : List Char) (pos : Nat) (caps : Caps) :
    ends s .eol pos caps =
      if pos = s.length ∨ (pos + 1 = s.length ∧ s.get? pos = some '\n') then
        [(pos, caps)]
      else [] := rfl

/-- The single preferred match of the `use omp_lib` rule's pattern
`^(\s*)use omp_lib` on a line of `n` leading spaces followed by
`use omp_lib`: it spans `[0, n + 11)` and group 1 captured `[0, n)`. -/
theorem ends_omp (n : Nat) (suffix : List Char) :
    ends (List.replicate n ' ' ++ (L "use omp_lib" ++ suffix))
      ompLibRule.re 0 [] = [(n + 11, [(1, 0, n)])] := by
  have hall : ∀ c ∈ List.replicate n ' ', pySpace c = true := by
    intro c hc
    rw [List.eq_of_mem_replicate hc]
    decide
  have hcount : countWhileFrom pySpace
      (List.replicate n ' ' ++ (L "use omp_lib" ++ suffix)) 0 = n := by
    rw [show (L "use omp_lib" ++ suffix : List Char) =
        'u' :: (L "se omp_lib" ++ suffix) from rfl,
      countWhileFrom_zero pySpace _ 'u' _ hall (by decide),
      List.length_replicate]
  have hfail : ∀ e, e < 0 + countWhileFrom pySpace
      (List.replicate n ' ' ++ (L "use omp_lib" ++ suffix)) 0 →
      ends (List.replicate n ' ' ++ (L "use omp_lib" ++ suffix))
        (.lit (L "use omp_lib")) e ((1, 0, e) :: []) = [] := by
    intro e he
    rw [hcount] at he
    have he' : e < n := by omega
    rw [ends_lit, if_neg ?_]
    rw [drop_replicate_append ' ' _ n e (Nat.le_of_lt he')]
    have hrep : n - e = (n - e - 1) + 1 := by omega
    rw [hrep, List.replicate_succ, List.cons_append]
    rw [show (L "use omp_lib" : List Char) = 'u' :: L "se omp_lib" from rfl,
      litAt_cons_false 'u' ' ' _ _ (by decide)]
    simp
  show ends (List.replicate n ' ' ++ (L "use omp_lib" ++ suffix))
      (.seq .bol (.seq (.group 1 (.starP pySpace)) (.lit (L "use omp_lib"))))
      0 [] = _
  rw [ends_seq, ends_bol_zero, flatMap_singleton, ends_seq, ends_group,
    List.flatMap_map, ends_starP_flatMap _ _ _ _ _ hfail, hcount,
    Nat.zero_add, ends_lit]
  rw [if_pos ?_]
  · rw [show (L "use omp_lib" : List Char).length = 11 from rfl]
  · rw [drop_replicate_append ' ' _ n n (Nat.le_refl n), Nat.sub_self,
      List.replicate_zero, List.nil_append]
    exact litAt_append_self (L "use omp_lib") suffix

theorem finditer_omp (n : Nat) (suffix : List Char) :
    finditer ompLibRule.re
      (List.replicate n ' ' ++ (L "use omp_lib" ++ suffix)) =
      [⟨0, n + 11, [(1, 0, n)]⟩] := by
  apply finditer_anchored_single
  · unfold matchAt
    rw [ends_omp]
    rfl
  · omega
  · intro q hq
    show matchAt (.seq .bol (.seq (.group 1 (.starP pySpace))
      (.lit (L "use omp_lib")))) _ q = none
    exact matchAt_bol_seq_pos _ _ q (by omega)

/-- Claim C10: on any line of leading spaces followed by `use omp_lib`,
the `Should prepend with "!$"` rule corrects the line to the control
character U+0001 followed by `!$ use omp_lib` (and the rest of the
line): the replacement template is a non-raw Python string in which
`\1` denotes the literal character U+0001 rather than a back-reference,
so the captured leading whitespace is dropped from the output.  One
hint, one correction and one diagnostic at column 1 are recorded. -/
theorem omp_lib_rule_control_char (n : Nat) (suffix : List Char)
    (meta : Meta) (st : CheckState) :
    check_rule (List.replicate n ' ' ++ (L "use omp_lib" ++ suffix))
      (List.replicate n ' ' ++ (L "use omp_lib" ++ suffix)) meta ompLibRule
      st =
      some ('\x01' :: (L "!$ use omp_lib" ++ suffix), 1,
        CheckState.mk (st.errcount + 1) (st.modifcount + 1)
          (st.errors ++ [fmt_err "Should prepend with \"!$\"" meta 1])) := by
  have hfind := finditer_omp n suffix
  have hexp : expandTemplate
      (List.replicate n ' ' ++ (L "use omp_lib" ++ suffix))
      ⟨0, n + 11, [(1, 0, n)]⟩ (L "\x01!$ use omp_lib") =
      some (L "\x01!$ use omp_lib") :=
    expandTemplate_no_backslash _ _ _ (by decide)
  have hdrop : (List.replicate n ' ' ++ (L "use omp_lib" ++ suffix)).drop
      (n + 11) = suffix := by
    rw [← List.append_assoc]
    have hlen : (List.replicate n ' ' ++ L "use omp_lib").length = n + 11 := by
      rw [List.length_append, List.length_replicate]
      rfl
    rw [← hlen]
    exact List.drop_left _ _
  have hsub := pysub_single ompLibRule.re (L "\x01!$ use omp_lib")
    (List.replicate n ' ' ++ (L "use omp_lib" ++ suffix)) (n + 11)
    [(1, 0, n)] (L "\x01!$ use omp_lib") hfind hexp
  rw [hdrop] at hsub
  exact check_rule_single_static _ _ meta ompLibRule _ _ st (n + 11) _ _
    rfl rfl hfind hsub

theorem ends_pred_some (s : List Char) (p : Char → Bool) (pos : Nat)
    (caps : Caps) (c : Char) (hc : s.get? pos = some c) (hp : p c = true) :
    ends s (.pred p) pos caps = [(pos + 1, caps)] := by
  rw [ends_pred, hc]
  simp [hp]

theorem ends_pred_fail (s : List Char) (p : Char → Bool) (pos : Nat)
    (caps : Caps) (c : Char) (hc : s.get? pos = some c) (hp : p c = false) :
    ends s (.pred p) pos caps = [] := by
  rw [ends_pred, hc]
  simp [hp]

/-- The line-length pattern `^.{lim}.+$` on a newline-terminated line:
it has a (single, full-width) match exactly when the line body is
strictly longer than the limit. -/
theorem ends_linelen (s : List Char) (hs : ∀ c ∈ s, pyDot c = true)
    (lim : Nat) :
    ends (s ++ ['\n']) (linelenRule lim).re 0 [] =
      if lim < s.length then [(s.length, ([] : Caps))] else [] := by
  have hcount0 : countWhileFrom pyDot (s ++ ['\n']) 0 = s.length :=
    countWhileFrom_zero pyDot s '\n' [] hs (by decide)
  have hlen : (s ++ ['\n']).length = s.length + 1 := by simp
  show ends (s ++ ['\n'])
      (.seq .bol (.seq (.repP lim pyDot)
        (.seq (.seq (.pred pyDot) (.starP pyDot)) .eol))) 0 [] = _
  rw [ends_seq, ends_bol_zero, flatMap_singleton, ends_seq, ends_repP,
    hcount0]
  by_cases hle : lim ≤ s.length
  · rw [if_pos hle, flatMap_singleton, Nat.zero_add, ends_seq, ends_seq]
    by_cases hlt : lim < s.length
    · obtain ⟨c, hc⟩ : ∃ c, s.get? lim = some c :=
        ⟨s.get ⟨lim, hlt⟩, List.get?_eq_get hlt⟩
      have hgets : (s ++ ['\n']).get? lim = some c := by
        rw [List.get?_append hlt, hc]
      have hdotc : pyDot c = true := hs c (List.get?_mem hc)
      rw [ends_pred_some _ _ _ _ c hgets hdotc, flatMap_singleton]
      have hcount1 : countWhileFrom pyDot (s ++ ['\n']) (lim + 1) =
          s.length - (lim + 1) :=
        countWhileFrom_at pyDot s (lim + 1) (by omega) hs '\n' (by decide)
      have hfail : ∀ e, e < (lim + 1) +
          countWhileFrom pyDot (s ++ ['\n']) (lim + 1) →
          ends (s ++ ['\n']) .eol e ([] : Caps) = [] := by
        intro e he
        rw [hcount1] at he
        rw [ends_eol, if_neg ?_]
        rw [hlen]
        intro hd
        rcases hd with h1 | ⟨h2, _⟩ <;> omega
      have hpos : (lim + 1) + (s.length - (lim + 1)) = s.length := by omega
      have hcond : s.length = (s ++ ['\n']).length ∨
          (s.length + 1 = (s ++ ['\n']).length ∧
            (s ++ ['\n']).get? s.length = some '\n') := by
        right
        exact ⟨by rw [hlen], List.get?_concat_length s '\n'⟩
      rw [ends_starP_flatMap _ _ _ _ _ hfail, hcount1, hpos, ends_eol,
        if_pos hcond, if_pos hlt]
    · have heq : lim = s.length := by omega
      have hget : (s ++ ['\n']).get? lim = some '\n' := by
        rw [heq]
        exact List.get?_concat_length s '\n'
      rw [ends_pred_fail _ _ _ _ '\n' hget (by decide), if_neg hlt]
      simp
  · rw [if_neg hle, if_neg (by omega)]
    simp

/-- Claim C4: the compiled line-length rule matches a (newline-
terminated) line exactly when the line body strictly exceeds the
configured limit, and a matching line yields exactly one diagnostic
whose message carries the configured limit at column 1 -- in particular,
with limit 10, a 10-character line passes and an 11-character line is
flagged once. -/
theorem linelen_rule_boundary (s : List Char) (hnl : '\n' ∉ s) (lim : Nat)
    (meta : Meta) (st : CheckState) :
    (s.length ≤ lim →
      check_rule (s ++ ['\n']) (s ++ ['\n']) meta (linelenRule lim) st =
        some (s ++ ['\n'], 0, st)) ∧
    (lim < s.length →
      check_rule (s ++ ['\n']) (s ++ ['\n']) meta (linelenRule lim) st =
        some (s ++ ['\n'], 1,
          CheckState.mk (st.errcount + 1) st.modifcount
            (st.errors ++ [fmt_err ("Line length > " ++ toString lim ++
              " characters") meta 1]))) := by
  have hs : ∀ c ∈ s, pyDot c = true := by
    intro c hc
    have hne : c ≠ '\n' := fun h => hnl (h ▸ hc)
    simp [pyDot, hne]
  constructor
  · intro hle
    have hnone : ∀ q, 0 ≤ q →
        matchAt (linelenRule lim).re (s ++ ['\n']) q = none := by
      intro q _
      cases q with
      | zero =>
          unfold matchAt
          rw [ends_linelen s hs lim, if_neg (by omega)]
          rfl
      | succ q =>
          show matchAt (.seq .bol (.seq (.repP lim pyDot)
            (.seq (.seq (.pred pyDot) (.starP pyDot)) .eol))) _ (q + 1) =
            none
          exact matchAt_bol_seq_pos _ _ (q + 1) (by omega)
    have hfind : finditer (linelenRule lim).re (s ++ ['\n']) = [] := by
      unfold finditer
      exact finditerGo_none_from _ _ 0 hnone _ 0 (Nat.le_refl 0)
    exact check_rule_no_match _ _ meta (linelenRule lim) st hfind
  · intro hlt
    have hfind : finditer (linelenRule lim).re (s ++ ['\n']) =
        [⟨0, s.length, []⟩] := by
      apply finditer_anchored_single
      · unfold matchAt
        rw [ends_linelen s hs lim, if_pos hlt]
        rfl
      · omega
      · intro q hq
        show matchAt (.seq .bol (.seq (.repP lim pyDot)
          (.seq (.seq (.pred pyDot) (.starP pyDot)) .eol))) _ q = none
        exact matchAt_bol_seq_pos _ _ q (by omega)
    exact check_rule_single_detect _ _ meta (linelenRule lim) _ st 0
      s.length [] rfl rfl hfind

/-- Witness for C4 at the spec's boundary: with limit 10, the
10-character line `aaaaaaaaaa` (plus newline) produces no diagnostic and
the 11-character line `aaaaaaaaaaa` produces exactly one, whose message
states the limit 10. -/
theorem linelen_rule_boundary_witness :
    ('\n' ∉ L "aaaaaaaaaa" ∧
      check_rule (L "aaaaaaaaaa" ++ ['\n']) (L "aaaaaaaaaa" ++ ['\n'])
        (Meta.mk "f" 1 "aaaaaaaaaa") (linelenRule 10) (CheckState.mk 0 0 []) =
        some (L "aaaaaaaaaa" ++ ['\n'], 0, CheckState.mk 0 0 [])) ∧
    ('\n' ∉ L "aaaaaaaaaaa" ∧
      check_rule (L "aaaaaaaaaaa" ++ ['\n']) (L "aaaaaaaaaaa" ++ ['\n'])
        (Meta.mk "f" 1 "aaaaaaaaaaa") (linelenRule 10)
        (CheckState.mk 0 0 []) =
        some (L "aaaaaaaaaaa" ++ ['\n'], 1, CheckState.mk 1 0
          [fmt_err ("Line length > " ++ toString 10 ++ " characters")
            (Meta.mk "f" 1 "aaaaaaaaaaa") 1])) := by
  constructor
  · exact ⟨by decide, (linelen_rule_boundary (L "aaaaaaaaaa") (by decide) 10
      (Meta.mk "f" 1 "aaaaaaaaaa") (CheckState.mk 0 0 [])).1 (by decide)⟩
  · exact ⟨by decide, (linelen_rule_boundary (L "aaaaaaaaaaa") (by decide) 10
      (Meta.mk "f" 1 "aaaaaaaaaaa") (CheckState.mk 0 0 [])).2 (by decide)⟩

end FortranLint
